import Mathlib

/-!
# Boardify universal card-game engine — verification development

Shallow embedding of the data-driven card game engine
(`game-engine/backend/app/services/engines/universal.py`, the Exploding
Kittens plugin `exploding_kittens.py`, the plugin dispatch of
`plugin_loader.py`, and the data model `app/models/game.py`), together
with theorems settling the specification claims about it.

Modelling conventions:
* Python dict-based metadata bags are embedded as structures holding
  exactly the keys the engine reads; a key that may be absent is an
  `Option` field and each `dict.get(k, d)` becomes `field.getD d`.
* `random.shuffle` / `random.choice` / `random.randint` are modelled by
  an explicit `RNG` record threaded through the engine; theorems either
  quantify over it (with a permutation hypothesis where the claim needs
  one) or instantiate it with the identity shuffle.
* A raised-and-uncaught Python exception is modelled by `Except.error`;
  `try/except` blocks become `match` on that value.
* `LogEntry.id` and `LogEntry.timestamp` come from `uuid4()` and the wall
  clock; no verified property reads them, so they are fixed to `""`/`0`,
  and log messages are abbreviated tags (no property reads them either).
-/

namespace Boardify

/-- `x or y` on Python ints where `None` and `0` are falsy
(`effect.get("value") or 1`). -/
def pyOrInt (v : Option Int) (d : Int) : Int :=
  match v with
  | none => d
  | some 0 => d
  | some x => x

/-- A condition value from a card effect's `conditions` list
(`universal.py` condition system): either a string (e.g. a subtype for
`has_card_type`) or an int (e.g. for `deck_size_gte`). -/
inductive CondValue where
  | str (s : String)
  | int (n : Int)
deriving Repr, DecidableEq

/-- `int(val)` on a condition value.  On a non-numeric string Python would
raise; no verified property exercises that path, so it is fixed to 0. -/
def CondValue.asInt : CondValue → Int
  | .int n => n
  | .str _ => 0

/-- `val` compared against a string (`c.subtype == val`). -/
def CondValue.asStr : CondValue → Option String
  | .str s => some s
  | .int _ => none

/-- One entry of an effect's `conditions` list: `{"type": ..., "value": ...}`. -/
structure Cond where
  ctype : String
  value : CondValue
deriving Repr, DecidableEq

/-- `CardEffect` (`app/models/game.py`).  The `metadata` dict of an effect
is read by the engine only through `metadata.get("conditions", [])`
(`universal.py:1104`), so it is embedded as that list. -/
structure CardEffect where
  etype : String
  value : Option Int := none
  target : Option String := none
  description : String := ""
  conditions : List Cond := []
deriving Repr, DecidableEq

/-- The card `metadata` keys the engine reads: `color` and `number`.
(`borderColor`/`cardBg` injected by `_apply_card_color_map` are cosmetic
and read by no engine logic, so `cardColorMap` is modelled as unset.) -/
structure CardMeta where
  color : Option String := none
  number : Option Int := none
deriving Repr, DecidableEq

/-- `Card` (`app/models/game.py`). -/
structure Card where
  id : String
  definitionId : String
  name : String
  ctype : String
  subtype : Option String := none
  description : String := ""
  effects : List CardEffect := []
  isPlayable : Bool := true
  isReaction : Bool := false
  metadata : CardMeta := {}
deriving Repr, DecidableEq

/-- `CardDefinition` (`app/models/game.py`), with the definition-level
metadata keys `setup_game` reads (`notInStartDeck`, `injectCount`,
`guaranteedInStartHand`). -/
structure CardDefinition where
  id : String
  name : String
  ctype : String
  subtype : Option String := none
  description : String := ""
  effects : List CardEffect := []
  isPlayable : Bool := true
  isReaction : Bool := false
  count : Nat := 1
  metadata : CardMeta := {}
  notInStartDeck : Bool := false
  injectCount : Nat := 0
  injectPlayersMinusOne : Bool := false
  guaranteedInStartHand : Bool := false
deriving Repr, DecidableEq

/-- `Hand` (`app/models/game.py`). -/
structure Hand where
  playerId : String
  cards : List Card
  isVisible : Bool := true
deriving Repr, DecidableEq

/-- The player `metadata` keys the engine writes/reads
(`peekedCards`, written by the EK plugin's see-the-future). -/
structure PlayerMeta where
  peekedCards : List Card := []
deriving Repr, DecidableEq

/-- `Player` (`app/models/game.py`). -/
structure Player where
  id : String
  name : String
  status : String := "waiting"
  hand : Hand
  isCurrentTurn : Bool := false
  turnCount : Int := 0
  metadata : PlayerMeta := {}
deriving Repr, DecidableEq

/-- `Zone` (`app/models/game.py`). -/
structure Zone where
  id : String
  name : String
  ztype : String
  cards : List Card
  isPublic : Bool := true
deriving Repr, DecidableEq

/-- `TurnStructure` (`app/models/game.py`); `phases` is UI-only. -/
structure TurnStructure where
  canPassTurn : Bool := false
  mustPlayCard : Bool := false
  drawCount : Int := 1
deriving Repr, DecidableEq

/-- `WinCondition` (`app/models/game.py`); of its metadata the engine
reads `targetScore` (default 500). -/
structure WinCondition where
  wtype : String
  description : String := ""
  targetScore : Option Int := none
deriving Repr, DecidableEq

/-- `GameRules` (`app/models/game.py`); `specialRules` are informational. -/
structure GameRules where
  minPlayers : Int := 2
  maxPlayers : Int := 6
  handSize : Nat := 5
  turnStructure : TurnStructure := {}
  winCondition : WinCondition
deriving Repr, DecidableEq

/-- `LogEntry` (`app/models/game.py`); id/timestamp abstracted (see header). -/
structure LogEntry where
  message : String
  ltype : String
  playerId : Option String := none
  cardId : Option String := none
deriving Repr, DecidableEq

/-- A zone description from the config's `zones` list. -/
structure ZoneDef where
  id : String
  name : String
  ztype : String
  isPublic : Bool := true
deriving Repr, DecidableEq

/-- The game-config keys (`state.metadata["gameConfig"]`) the engine
reads, with the defaults of the corresponding `cfg.get` calls.
An empty `zoneDefs` list models an absent `zones` key. -/
structure GameConfig where
  zoneDefs : List ZoneDef := []
  matchColor : Bool := false
  matchNumber : Bool := false
  matchType : Bool := false
  stackableDraw : Bool := false
  wildAlwaysPlayable : Bool := true
  colors : List String := []
  reverseEqualsSkipTwoPlayers : Bool := false
  allowWildDraw4Challenge : Bool := false
  drawUntilPlayable : Bool := false
  startWithDiscard : Bool := false
  excludeFromStartDiscard : List String := []
deriving Repr, DecidableEq

/-- The `state.metadata` keys the engine reads/writes.  `Option` fields
model possibly-absent dict keys (the engine's `.get` defaults are applied
at the call sites). -/
structure StateMeta where
  direction : Option Int := none
  activeColor : Option String := none
  pendingDraw : Option Int := none
  scores : Option (List (String × Int)) := none
  unoCalledBy : Option (List String) := none
  extraTurn : Option String := none
  attacksPending : Option Int := none
  lastWildDraw4WasIllegal : Bool := false
  gameConfig : GameConfig := {}
  cardDefinitions : List CardDefinition := []
deriving Repr, DecidableEq

/-- The fields of an inbound action (`apply_action`'s `action` argument),
with the metadata keys the engine reads. -/
structure ActionMeta where
  chosenColor : Option String := none
  color : Option String := none
  targetPlayerId : Option String := none
  cardId : Option String := none
  position : Option Int := none
  challenge : Bool := false
  comboPairId : Option String := none
deriving Repr, DecidableEq

structure Action where
  atype : String := ""
  playerId : String := ""
  cardId : Option String := none
  targetPlayerId : Option String := none
  metadata : ActionMeta := {}
deriving Repr, DecidableEq

/-- `state.pendingAction`: the tagged dicts the engine stores there
(UI-only keys such as `choices`/`prompt`/`deckSize` are omitted). -/
inductive PendingAction where
  | chooseColor (playerId cardId : String) (drawCount : Int)
      (isWildDraw : Bool) (drawN : Int)
  | insertCard (playerId : String) (card : Card)
  | giveCard (playerId targetPlayerId : String)
  | selectTarget (ptype : String) (playerId cardId : String)
  | challengeOrAccept (playerId challengedPlayerId : String) (drawCount : Int)
  | nopeWindow (playerId cardId : String) (card : Card) (cardName : String)
      (effects : List CardEffect) (originalAction : Action)
      (nopeCount : Nat) (lastNoper : Option String)
  | insertExploding (playerId : String) (card : Card)
  | favor (playerId targetPlayerId : String)
deriving Repr, DecidableEq

/-- `GameState` (`app/models/game.py`). -/
structure GameState where
  gameId : String := ""
  roomCode : String := ""
  gameName : String := ""
  gameType : String := ""
  phase : String := "lobby"
  players : List Player := []
  zones : List Zone := []
  currentTurnPlayerId : String := ""
  turnNumber : Int := 0
  rules : GameRules
  log : List LogEntry := []
  winner : Option Player := none
  pendingAction : Option PendingAction := none
  metadata : StateMeta := {}
deriving Repr, DecidableEq

/-- Explicit source of randomness: `shuffle` stands for `random.shuffle`,
`pick` indexes a `random.choice`, `randPos` a `random.randint(0, n)`. -/
structure RNG where
  shuffle : List Card → List Card := id
  pick : Nat := 0
  randPos : Nat := 0

/-- The identity-randomness instance used to evaluate concrete runs. -/
def idRNG : RNG := {}

/-- Uncaught Python exceptions are modelled by `Except.error`. -/
abbrev Py (α : Type) := Except String α

/-- The `(success, error_message, triggered_events)` tuple returned by
action handlers. -/
structure ActionRes where
  success : Bool
  errorMsg : String
  triggered : List String
deriving Repr, DecidableEq

abbrev ActionOut := ActionRes × GameState

/-! ## Utilities (`universal.py`) -/

/-- Append a log entry (`state.log.append(_log(...))`). -/
def pushLog (s : GameState) (msg ltype : String)
    (pid : Option String := none) (cid : Option String := none) : GameState :=
  { s with log := s.log ++ [{ message := msg, ltype := ltype, playerId := pid, cardId := cid }] }

/-- `_draw_zone`. -/
def drawZone (s : GameState) : Option Zone :=
  s.zones.find? (fun z => z.id == "draw_pile")

/-- `_discard_zone`. -/
def discardZone (s : GameState) : Option Zone :=
  s.zones.find? (fun z => z.id == "discard_pile")

/-- `_active`. -/
def activePlayers (s : GameState) : List Player :=
  s.players.filter (fun p => !(p.status == "eliminated" || p.status == "winner"))

/-- `_get_player`. -/
def getPlayer (s : GameState) (pid : String) : Option Player :=
  s.players.find? (fun p => p.id == pid)

/-- `_card_color` (an empty metadata dict yields `None`, as does a missing key). -/
def cardColor (c : Card) : Option String := c.metadata.color

/-- `_card_number`. -/
def cardNumber (c : Card) : Option Int := c.metadata.number

/-- `_cfg`. -/
def cfgOf (s : GameState) : GameConfig := s.metadata.gameConfig

/-- Replace the first list element satisfying `p` — Python mutates the
object returned by a `next(...)`/`.index` search, i.e. the first match. -/
def updateFirst {α : Type} (p : α → Bool) (f : α → α) : List α → List α
  | [] => []
  | x :: xs => if p x then f x :: xs else x :: updateFirst p f xs

def updateZone (s : GameState) (zid : String) (f : Zone → Zone) : GameState :=
  { s with zones := updateFirst (fun z => z.id == zid) f s.zones }

def updatePlayer (s : GameState) (pid : String) (f : Player → Player) : GameState :=
  { s with players := updateFirst (fun p => p.id == pid) f s.players }

/-! ## Turn order (`universal.py`) -/

/-- `_direction`. -/
def direction (s : GameState) : Int := s.metadata.direction.getD 1

/-- `_peek_next`.  Python `%` on a positive modulus matches `Int.emod`. -/
def peekNext (s : GameState) (skip : Int := 0) : Option Player :=
  let active := activePlayers s
  if active.isEmpty then none
  else
    let ids := active.map (fun p => p.id)
    let d := direction s
    let idx : Int := ((ids.indexOf? s.currentTurnPlayerId).getD 0 : Nat)
    active.get? (((idx + d * (1 + skip)) % (active.length : Int)).toNat)

/-- `_advance_turn`. -/
def advanceTurn (s : GameState) (skip : Int := 0) : GameState :=
  match peekNext s skip with
  | none => s
  | some nxt =>
      { s with
        players := s.players.map (fun p => { p with isCurrentTurn := p.id == nxt.id }),
        currentTurnPlayerId := nxt.id,
        turnNumber := s.turnNumber + 1 }

/-- `_reverse_direction`. -/
def reverseDirection (s : GameState) : GameState :=
  { s with metadata := { s.metadata with direction := some (-(direction s)) } }

/-! ## Active color / value tracking (`universal.py`) -/

def activeColor (s : GameState) : Option String := s.metadata.activeColor

/-- `_active_number`. -/
def activeNumber (s : GameState) : Option Int :=
  match discardZone s with
  | some discard =>
    match discard.cards with
    | c :: _ => cardNumber c
    | [] => none
  | none => none

/-- `_active_subtype`. -/
def activeSubtype (s : GameState) : Option String :=
  match discardZone s with
  | some discard =>
    match discard.cards with
    | c :: _ => c.subtype
    | [] => none
  | none => none

/-- `_set_active_color`. -/
def setActiveColor (s : GameState) (card : Card) : GameState :=
  match cardColor card with
  | some col =>
    if col != "wild" then
      { s with metadata := { s.metadata with activeColor := some col } }
    else s
  | none => s

/-! ## Play legality (`universal.py`) -/

/-- `_can_play_card`. -/
def canPlayCard (card : Card) (s : GameState) : Bool :=
  let cfg := cfgOf s
  if cfg.wildAlwaysPlayable &&
      (cardColor card == some "wild" ||
       card.subtype == some "wild" || card.subtype == some "wild_draw4" ||
       card.subtype == some "wild_draw") then
    true
  else
    let pending := s.metadata.pendingDraw.getD 0
    if pending > 0 && cfg.stackableDraw then
      let cardDrawEffects := card.effects.filter
        (fun e => e.etype == "draw" || e.etype == "wild_draw")
      if cardDrawEffects.isEmpty then
        false
      else
        match discardZone s with
        | some discard =>
          match discard.cards with
          | topCard :: _ =>
            let topDrawEffects := topCard.effects.filter
              (fun e => e.etype == "draw" || e.etype == "wild_draw")
            -- only same draw values may stack
            match topDrawEffects, cardDrawEffects with
            | te :: _, ce :: _ => te.value == ce.value
            | _, _ => true
          | [] => true
        | none => true
    else
      if cfg.matchColor &&
          (match cardColor card, activeColor s with
           | some c, some a => c == a
           | _, _ => false) then true
      else if cfg.matchNumber &&
          (match cardNumber card, activeNumber s with
           | some cn, some an => cn == an
           | _, _ => false) then true
      else if cfg.matchType &&
          (card.subtype == activeSubtype s && !(activeSubtype s == some "number")) then true
      else if !(cfg.matchColor || cfg.matchNumber || cfg.matchType) then true
      else false

/-! ## Deck recycling (`universal.py`) -/

/-- `_ensure_draw_cards`: recycle discard into draw if needed. -/
def ensureDrawCards (rng : RNG) (s : GameState) (n : Int) : GameState :=
  match drawZone s, discardZone s with
  | some draw, some discard =>
    if (draw.cards.length : Int) < n && discard.cards.length > 1 then
      match discard.cards with
      | top :: rest =>
        -- wild cards get their color reset to "wild" (a no-op on this model)
        let recycled := rest.map (fun c =>
          if c.metadata.color == some "wild" then
            { c with metadata := { c.metadata with color := some "wild" } }
          else c)
        let s := updateZone s "draw_pile"
          (fun z => { z with cards := z.cards ++ rng.shuffle recycled })
        let s := updateZone s "discard_pile" (fun z => { z with cards := [top] })
        pushLog s "reshuffled" "system"
      | [] => s
    else s
  | _, _ => s

/-- `_draw_n`: move up to `n` cards from the draw pile into `pid`-s hand. -/
def drawN (rng : RNG) (s : GameState) (pid : String) (n : Int) : List Card × GameState :=
  let s := ensureDrawCards rng s n
  match drawZone s with
  | none => ([], s)
  | some draw =>
    let k := min n.toNat draw.cards.length
    let drawn := draw.cards.take k
    let s := updateZone s "draw_pile" (fun z => { z with cards := z.cards.drop k })
    let s := updatePlayer s pid (fun p =>
      { p with hand := { p.hand with cards := p.hand.cards ++ drawn } })
    (drawn, s)

/-! ## Condition evaluator (`universal.py`) -/

/-- `_check_conditions`: returns `(all_met, failure_reason)`. -/
def checkConditions (conds : List Cond) (s : GameState) (player : Player) :
    Bool × String :=
  match conds with
  | [] => (true, "")
  | cond :: rest =>
    let next := fun () => checkConditions rest s player
    if cond.ctype == "has_card_type" then
      let holds := match cond.value with
        | .str v => player.hand.cards.any (fun c => c.subtype == some v)
        | .int _ => false
      if holds then next () else (false, "No matching card in hand")
    else if cond.ctype == "deck_size_gte" then
      let sz : Int := ((drawZone s).map (fun z => z.cards.length)).getD 0
      if sz < cond.value.asInt then (false, "Draw pile too small") else next ()
    else if cond.ctype == "hand_size_lte" then
      if (player.hand.cards.length : Int) > cond.value.asInt then
        (false, "Too many cards in hand")
      else next ()
    else if cond.ctype == "active_color" then
      let matches_ := match cond.value with
        | .str v => activeColor s == some v
        | .int _ => false
      if matches_ then next () else (false, "Active color mismatch")
    else if cond.ctype == "turn_number_gte" then
      if s.turnNumber < cond.value.asInt then (false, "Too early in the game")
      else next ()
    else if cond.ctype == "player_count_eq" then
      if ((activePlayers s).length : Int) != cond.value.asInt then
        (false, "Wrong number of players remaining")
      else next ()
    else if cond.ctype == "player_count_lte" then
      if ((activePlayers s).length : Int) > cond.value.asInt then
        (false, "Too many players remaining")
      else next ()
    else next ()

/-! ## Effect primitive handlers (`universal.py`)

Python handlers receive the live `player` object and mutate shared card
objects; here a handler receives the player's id (re-reading the player
from the state models the live reference), and a mutation of the played
card object is modelled by rewriting every occurrence of its id in the
state (`updateCardEverywhere`) plus returning the updated card for the
remaining effects of the same play. -/

/-- The control-signal dict an effect handler may return. -/
structure EffectResult where
  skip : Int := 0
  haltTurnAdvance : Bool := false
  extraTurn : Bool := false
  needsColorChoice : Bool := false
  drawCount : Int := 0
  isWildDraw : Bool := false
  drawNVal : Int := 0
  needsTarget : Bool := false
  pendingType : String := ""
  challengeWindow : Bool := false
  eliminationBlocked : Bool := false
  defuseFailed : Bool := false
deriving Repr, DecidableEq

abbrev EffHandler :=
  RNG → GameState → String → Card → CardEffect → Action → List String →
    Py (GameState × List String × Option EffectResult × Card)

/-- The player object a handler received is always present in
`state.players` (validated by the caller; players are never removed), so
the default is never used. -/
def getPlayerD (s : GameState) (pid : String) : Player :=
  (getPlayer s pid).getD { id := pid, name := "", hand := { playerId := pid, cards := [] } }

/-- Rewrite every occurrence of card id `cid` — Python aliasing: the same
card object can sit in a hand, a zone and a local variable at once. -/
def updateCardEverywhere (s : GameState) (cid : String) (c : Card) : GameState :=
  let upd := fun (cs : List Card) => cs.map (fun x => if x.id == cid then c else x)
  { s with
    zones := s.zones.map (fun z => { z with cards := upd z.cards }),
    players := s.players.map (fun p =>
      { p with hand := { p.hand with cards := upd p.hand.cards } }) }

/-- `list.remove(card)`: drop the first occurrence (cards have unique
ids, so matching on the id picks the same element Python's value
equality does). -/
def removeCardById (cs : List Card) (cid : String) : List Card :=
  match cs with
  | [] => []
  | c :: rest => if c.id == cid then rest else c :: removeCardById rest cid

/-- `random.choice`, driven by `rng.pick`; raises on an empty list. -/
def pickCard (rng : RNG) (cs : List Card) : Py Card :=
  match cs.get? (rng.pick % cs.length) with
  | some c => .ok c
  | none => .error "IndexError: random.choice on empty list"

/-- Render an optional int the way a Python f-string does. -/
def pyShowOptInt (v : Option Int) : String :=
  match v with
  | some n => toString n
  | none => "None"

/-- `_effect_number`. -/
def effectNumber : EffHandler := fun _rng s pid card _eff _a trig =>
  let s := setActiveColor s card
  let s := pushLog s "number played" "action" (some pid) (some card.id)
  .ok (s, trig, none, card)

/-- `_effect_skip`. -/
def effectSkip : EffHandler := fun _rng s pid card eff _a trig =>
  let skipCount := pyOrInt eff.value 1
  let active := activePlayers s
  let s := setActiveColor s card
  let skipCount :=
    if active.length == 2 && (cfgOf s).reverseEqualsSkipTwoPlayers
        && card.subtype == some "reverse" then 1 else skipCount
  let s := pushLog s "skip played" "action" (some pid) (some card.id)
  .ok (s, trig ++ ["skip:" ++ toString skipCount], some { skip := skipCount }, card)

/-- `_effect_reverse`. -/
def effectReverse : EffHandler := fun _rng s pid card _eff _a trig =>
  let active := activePlayers s
  let s := setActiveColor s card
  if active.length == 2 && (cfgOf s).reverseEqualsSkipTwoPlayers then
    let s := pushLog s "reverse as skip" "action" (some pid) (some card.id)
    .ok (s, trig ++ ["reverse_as_skip"], some { skip := 1 }, card)
  else
    let s := reverseDirection s
    let s := pushLog s "reversed" "action" (some pid) (some card.id)
    .ok (s, trig ++ ["reversed"], none, card)

/-- `_effect_draw`. -/
def effectDraw : EffHandler := fun rng s pid card eff a trig =>
  let n := pyOrInt eff.value 1
  let targetMode := eff.target.getD "next_player"
  let stackable := (cfgOf s).stackableDraw
  let s := setActiveColor s card
  if stackable then
    let total := s.metadata.pendingDraw.getD 0 + n
    let s := { s with metadata := { s.metadata with pendingDraw := some total } }
    let s := pushLog s "draw stacked" "action" (some pid) (some card.id)
    .ok (s, trig ++ ["draw_stack:" ++ toString total], none, card)
  else
    let targets : List String :=
      if targetMode == "next_player" then
        match peekNext s with | some t => [t.id] | none => []
      else if targetMode == "all_others" then
        let cur := s.currentTurnPlayerId
        ((activePlayers s).filter (fun p => p.id != cur)).map (fun p => p.id)
      else if targetMode == "choose" then
        match a.targetPlayerId <|> a.metadata.targetPlayerId with
        | some tid => match getPlayer s tid with | some t => [t.id] | none => []
        | none => match peekNext s with | some t => [t.id] | none => []
      else
        match peekNext s with | some t => [t.id] | none => []
    let s := targets.foldl (fun s tid =>
      let (_, s) := drawN rng s tid n
      pushLog s "forced draw" "effect" (some tid)) s
    let trig := trig ++ ["forced_draw:" ++ toString n]
    if targetMode == "next_player" then .ok (s, trig, some { skip := 1 }, card)
    else .ok (s, trig, none, card)

/-- `_effect_self_draw`. -/
def effectSelfDraw : EffHandler := fun rng s pid card eff _a trig =>
  let n := pyOrInt eff.value 1
  let (_, s) := drawN rng s pid n
  let s := pushLog s "self draw" "action" (some pid) (some card.id)
  .ok (s, trig ++ ["self_draw:" ++ toString n], none, card)

/-- `_effect_wild`: raises when the config declares no colors. -/
def effectWild : EffHandler := fun _rng s pid card _eff a trig =>
  let chosen := a.metadata.chosenColor <|> a.metadata.color
  let validColors := (cfgOf s).colors
  if validColors.isEmpty then
    .error "Game config must define colors array"
  else
    match chosen with
    | some col =>
      if validColors.contains col then
        let s := { s with metadata := { s.metadata with activeColor := some col } }
        let card := { card with metadata := { card.metadata with color := some col } }
        let s := updateCardEverywhere s card.id card
        let s := pushLog s "wild color chosen" "action" (some pid) (some card.id)
        .ok (s, trig ++ ["color_chosen:" ++ col], none, card)
      else
        .ok (s, trig, some { needsColorChoice := true, drawCount := 0 }, card)
    | none =>
      .ok (s, trig, some { needsColorChoice := true, drawCount := 0 }, card)

/-- `_effect_wild_draw`: raises when the config declares no colors. -/
def effectWildDraw : EffHandler := fun _rng s pid card eff a trig =>
  let n := pyOrInt eff.value 4
  let chosen := a.metadata.chosenColor <|> a.metadata.color
  let validColors := (cfgOf s).colors
  if validColors.isEmpty then
    .error "Game config must define colors array"
  else
    let allowChallenge := (cfgOf s).allowWildDraw4Challenge
    let pendingTotal := s.metadata.pendingDraw.getD 0 + n
    let s := { s with metadata := { s.metadata with pendingDraw := some pendingTotal } }
    let needColor : Option EffectResult :=
      some { needsColorChoice := true, drawCount := pendingTotal,
             isWildDraw := true, drawNVal := n }
    match chosen with
    | some col =>
      if validColors.contains col then
        let s := { s with metadata := { s.metadata with activeColor := some col } }
        let card := { card with metadata := { card.metadata with color := some col } }
        let s := updateCardEverywhere s card.id card
        let s := pushLog s "wild draw played" "action" (some pid) (some card.id)
        let trig := trig ++ ["wild_draw:" ++ toString pendingTotal]
        -- challenge window only with 3+ active players
        if allowChallenge && (activePlayers s).length > 2 then
          .ok (s, trig,
            some { skip := 1, challengeWindow := true, drawCount := pendingTotal }, card)
        else
          .ok (s, trig, none, card)
      else
        .ok (s, trig, needColor, card)
    | none =>
      .ok (s, trig, needColor, card)

/-- `_effect_eliminate`.  Note the serialized effect dict carries no
top-level `conditions` key (`eff.dict()` has only type/value/target/
description/metadata), so `effect.get("conditions", [])` is always `[]`
and the condition guard of this handler never fires. -/
def effectEliminate : EffHandler := fun _rng s pid card eff a trig =>
  let targetMode := eff.target.getD "self"
  let targetPid? : Py String :=
    if targetMode == "self" then .ok pid
    else
      match a.metadata.targetPlayerId <|> a.targetPlayerId with
      | some tid =>
        match getPlayer s tid with
        | some t => .ok t.id
        | none => .error "AttributeError: NoneType has no attribute status"
      | none => .ok pid
  match targetPid? with
  | .error e => .error e
  | .ok tpid =>
    let s := updatePlayer s tpid (fun p => { p with status := "eliminated" })
    match discardZone s with
    | none => .error "AttributeError: NoneType has no attribute cards"
    | some _ =>
      let s := updateZone s "discard_pile" (fun z => { z with cards := card :: z.cards })
      let s := pushLog s "eliminated" "effect" (some tpid)
      let trig := trig ++ ["eliminated:" ++ tpid]
      match activePlayers s with
      | [w] =>
        let s := updatePlayer s w.id (fun p => { p with status := "winner" })
        let s := { s with winner := some { w with status := "winner" }, phase := "ended" }
        let s := pushLog s "game over" "system"
        .ok (s, trig ++ ["game_over"], none, card)
      | _ => .ok (s, trig, none, card)

/-- `_effect_defuse`.  The serialized effect dict has no `consumes` key,
so the consumed subtype is always `"defuse"`. -/
def effectDefuse : EffHandler := fun _rng s pid card _eff _a trig =>
  let player := getPlayerD s pid
  match player.hand.cards.find? (fun c => c.subtype == some "defuse") with
  | none =>
    .ok (s, trig ++ ["defuse_failed:no_defuse_card"], some { defuseFailed := true }, card)
  | some defuse =>
    let s := updatePlayer s pid (fun p =>
      { p with hand := { p.hand with cards := removeCardById p.hand.cards defuse.id } })
    match discardZone s with
    | none => .error "AttributeError: NoneType has no attribute cards"
    | some _ =>
      let s := updateZone s "discard_pile" (fun z => { z with cards := defuse :: z.cards })
      let s := pushLog s "defused" "effect" (some pid)
      let trig := trig ++ ["defused"]
      let s := { s with phase := "awaiting_response",
                        pendingAction := some (.insertCard pid card) }
      .ok (s, trig ++ ["insert_pending"], some { haltTurnAdvance := true }, card)

/-- `_effect_peek`. -/
def effectPeek : EffHandler := fun _rng s pid card eff _a trig =>
  let n := pyOrInt eff.value 3
  let topNames := match drawZone s with
    | some draw => (draw.cards.take n.toNat).map (fun c => c.name)
    | none => []
  let s := pushLog s "peeked" "action" (some pid) (some card.id)
  .ok (s, trig ++ ["top" ++ toString n ++ ":" ++ String.intercalate "," topNames],
       none, card)

/-- `_effect_shuffle`. -/
def effectShuffle : EffHandler := fun rng s pid card _eff _a trig =>
  let s := match drawZone s with
    | some _ => updateZone s "draw_pile" (fun z => { z with cards := rng.shuffle z.cards })
    | none => s
  let s := pushLog s "shuffled" "action" (some pid) (some card.id)
  .ok (s, trig ++ ["shuffled"], none, card)

/-- `_effect_steal`.  The serialized effect dict has no `cardChoice` key,
so the mode is always `"random"`. -/
def effectSteal : EffHandler := fun rng s pid card _eff a trig =>
  let target? := match a.targetPlayerId <|> a.metadata.targetPlayerId with
    | some tid => getPlayer s tid
    | none => none
  match target? with
  | none =>
    .ok (pushLog s "steal failed" "action", trig, none, card)
  | some target =>
    if target.hand.cards.isEmpty then
      .ok (pushLog s "steal failed" "action", trig, none, card)
    else
      match pickCard rng target.hand.cards with
      | .error e => .error e
      | .ok stolen =>
        let s := updatePlayer s target.id (fun p =>
          { p with hand := { p.hand with cards := removeCardById p.hand.cards stolen.id } })
        let s := updatePlayer s pid (fun p =>
          { p with hand := { p.hand with cards := p.hand.cards ++ [stolen] } })
        let s := pushLog s "stolen" "action" (some pid) (some card.id)
        .ok (s, trig ++ ["stolen:" ++ target.id], none, card)

/-- `_effect_give`. -/
def effectGive : EffHandler := fun _rng s pid card _eff a trig =>
  let target? := match a.targetPlayerId <|> a.metadata.targetPlayerId with
    | some tid => getPlayer s tid
    | none => none
  match target? with
  | none =>
    .ok (s, trig, some { needsTarget := true, pendingType := "give" }, card)
  | some target =>
    if target.hand.cards.isEmpty then
      .ok (pushLog s "give target empty" "action", trig, none, card)
    else
      let s := pushLog s "asks for a card" "action" (some pid) (some card.id)
      let s := { s with phase := "awaiting_response",
                        pendingAction := some (.giveCard pid target.id) }
      .ok (s, trig ++ ["give_pending"], some { haltTurnAdvance := true }, card)

/-- `_effect_insert`: handled via the `insert_card` pending action. -/
def effectInsert : EffHandler := fun _rng s _pid card _eff _a trig =>
  .ok (s, trig, none, card)

/-- `_effect_extra_turn`. -/
def effectExtraTurn : EffHandler := fun _rng s pid card _eff _a trig =>
  let s := { s with metadata := { s.metadata with extraTurn := some pid } }
  let s := pushLog s "extra turn" "action" (some pid) (some card.id)
  .ok (s, trig ++ ["extra_turn"], some { extraTurn := true }, card)

/-- `_effect_swap_hands`. -/
def effectSwapHands : EffHandler := fun _rng s pid card _eff a trig =>
  let target? := match a.targetPlayerId <|> a.metadata.targetPlayerId with
    | some tid => getPlayer s tid
    | none => none
  match target? with
  | none =>
    .ok (s, trig, some { needsTarget := true, pendingType := "swap_hands" }, card)
  | some target =>
    let player := getPlayerD s pid
    let pCards := player.hand.cards
    let tCards := target.hand.cards
    let s := updatePlayer s pid (fun p => { p with hand := { p.hand with cards := tCards } })
    let s := updatePlayer s target.id (fun p =>
      { p with hand := { p.hand with cards := pCards } })
    let s := pushLog s "swapped hands" "action" (some pid) (some card.id)
    .ok (s, trig ++ ["swapped_hands:" ++ target.id], none, card)

/-- Score-map helpers (`state.metadata["scores"]` dict). -/
def lookupScore (scores : List (String × Int)) (pid : String) : Int :=
  (((scores.find? (fun e => e.1 == pid))).map (fun e => e.2)).getD 0

def setScore (scores : List (String × Int)) (pid : String) (v : Int) :
    List (String × Int) :=
  if scores.any (fun e => e.1 == pid) then
    scores.map (fun e => if e.1 == pid then (e.1, v) else e)
  else scores ++ [(pid, v)]

/-- `_effect_score`.  When the effect carries no value, the stored `None`
reaches `scores.get(..) + n` and raises a `TypeError`. -/
def effectScore : EffHandler := fun _rng s pid card eff _a trig =>
  let targetMode := eff.target.getD "self"
  let target? := if targetMode == "self" then getPlayer s pid
    else if targetMode == "next_player" then peekNext s
    else getPlayer s pid
  match target? with
  | none => .ok (s, trig ++ ["score:" ++ pyShowOptInt eff.value], none, card)
  | some t =>
    match eff.value with
    | none => .error "TypeError: unsupported operand for int and NoneType"
    | some n =>
      let scores := s.metadata.scores.getD []
      let scores := setScore scores t.id (lookupScore scores t.id + n)
      let s := { s with metadata := { s.metadata with scores := some scores } }
      let s := pushLog s "score" "effect" (some t.id)
      .ok (s, trig ++ ["score:" ++ toString n], none, card)

/-- `_effect_any`. -/
def effectAny : EffHandler := fun _rng s pid card _eff _a trig =>
  let s := pushLog s "played" "action" (some pid) (some card.id)
  .ok (s, trig, none, card)

/-- `EFFECT_HANDLERS` dispatch table (including the aliases). -/
def effectHandlerFor (etype : String) : Option EffHandler :=
  if etype == "number" then some effectNumber
  else if etype == "skip" then some effectSkip
  else if etype == "reverse" then some effectReverse
  else if etype == "draw" then some effectDraw
  else if etype == "self_draw" then some effectSelfDraw
  else if etype == "wild" then some effectWild
  else if etype == "wild_draw" then some effectWildDraw
  else if etype == "eliminate" then some effectEliminate
  else if etype == "defuse" then some effectDefuse
  else if etype == "peek" then some effectPeek
  else if etype == "shuffle" then some effectShuffle
  else if etype == "steal" then some effectSteal
  else if etype == "give" then some effectGive
  else if etype == "insert" then some effectInsert
  else if etype == "extra_turn" then some effectExtraTurn
  else if etype == "swap_hands" then some effectSwapHands
  else if etype == "score" then some effectScore
  else if etype == "any" then some effectAny
  else if etype == "combo_steal" then some effectSteal
  else if etype == "cancel" then some effectAny
  else none

/-! ## Win condition checker (`universal.py`) -/

/-- Crown `w`: set status, store the winner (the stored object is the
mutated player, hence status `"winner"`), end the game. -/
def crownWinner (s : GameState) (w : Player) (msg : String) (trig : List String) :
    GameState × List String :=
  let s := updatePlayer s w.id (fun p => { p with status := "winner" })
  let s := { s with winner := some { w with status := "winner" }, phase := "ended" }
  (pushLog s msg "system", trig ++ ["win"])

/-- `max(scores, key=scores.get)`: the first key of maximal value. -/
def maxScoreKey (scores : List (String × Int)) : Option String :=
  match scores with
  | [] => none
  | e :: rest => some ((rest.foldl (fun best x => if x.2 > best.2 then x else best) e).1)

/-- `_check_win`: returns `(won, state, triggered)`. -/
def checkWin (s : GameState) (pid : String) (trig : List String) :
    Bool × GameState × List String :=
  let wc := s.rules.winCondition.wtype
  if wc == "empty_hand" then
    let player := getPlayerD s pid
    if player.hand.cards.isEmpty then
      let (s, trig) := crownWinner s player "wins by empty hand" trig
      (true, s, trig)
    else (false, s, trig)
  else if wc == "last_standing" then
    match activePlayers s with
    | [w] =>
      let (s, trig) := crownWinner s w "wins last standing" trig
      (true, s, trig)
    | _ => (false, s, trig)
  else if wc == "most_points" then
    let drawEmpty := match drawZone s with
      | none => true
      | some z => z.cards.isEmpty
    if drawEmpty then
      let scores := s.metadata.scores.getD []
      match maxScoreKey scores with
      | some bestId =>
        match getPlayer s bestId with
        | some w =>
          let (s, trig) := crownWinner s w "wins most points" trig
          (true, s, trig)
        | none => (false, s, trig)
      | none => (false, s, trig)
    else (false, s, trig)
  else if wc == "target_score" then
    let targetPts := s.rules.winCondition.targetScore.getD 500
    let scores := s.metadata.scores.getD []
    match scores.find? (fun e => targetPts ≤ e.2 && (getPlayer s e.1).isSome) with
    | some e =>
      match getPlayer s e.1 with
      | some w =>
        let (s, trig) := crownWinner s w "wins target score" trig
        (true, s, trig)
      | none => (false, s, trig)
    | none => (false, s, trig)
  else (false, s, trig)

/-! ## Plugin extension system (`game_plugin_base.py` / `plugin_loader.py`)

A plugin is modelled by its capability set: custom action handlers,
custom effect handlers and the `on_card_played` lifecycle hook (the only
hook `apply_action` consults).  A handler result of `Except.error` models
a raised Python exception. -/

/-- The optional dict `on_card_played` may return. -/
structure HookResult where
  valid : Bool := true
  error : String := ""
  haltTurnAdvance : Bool := false
deriving Repr, DecidableEq

abbrev ActionHandler := RNG → GameState → Action → Py ActionOut

structure Plugin where
  customActions : List (String × ActionHandler)
  customEffects : List (String × EffHandler)
  onCardPlayed : GameState → Player → Card → Py (Option HookResult)

/-- `dict.get` on a capability table. -/
def lookupHandler {α : Type} (l : List (String × α)) (k : String) : Option α :=
  ((l.find? (fun e => e.1 == k))).map (fun e => e.2)

/-! ## `_action_play_card` (`universal.py`) -/

def failRes (s : GameState) (msg : String) : Py ActionOut :=
  .ok ({ success := false, errorMsg := msg, triggered := [] }, s)

/-- The local control flags of `_action_play_card`'s effect loop. -/
structure PlayFlags where
  skipExtra : Int := 0
  halt : Bool := false
  extraTurn : Bool := false
deriving Repr, DecidableEq

/-- The `for eff in card.effects` loop of `_action_play_card`: either an
early `return` (`Sum.inl`, a caught handler exception), an uncaught
exception (`Except.error`), or the final state and flags. -/
def playEffectsLoop (rng : RNG) (plugin : Option Plugin) (a : Action) (pid : String) :
    List CardEffect → GameState → Card → List String → PlayFlags →
    Py (Sum ActionOut (GameState × List String × PlayFlags))
  | [], s, _card, trig, flags => .ok (.inr (s, trig, flags))
  | eff :: rest, s, card, trig, flags =>
    let player := getPlayerD s pid
    let condStep : Py (Sum (GameState × List String × PlayFlags) Unit) :=
      if eff.conditions.isEmpty then .ok (.inr ())
      else
        let (met, reason) := checkConditions eff.conditions s player
        if met then .ok (.inr ())
        else
          -- failed condition on an eliminate redirects to a defuse effect
          if eff.etype == "eliminate" then
            match card.effects.find? (fun e => e.etype == "defuse") with
            | some defuseEff =>
              match effectDefuse rng s pid card defuseEff a trig with
              | .error e => .error e   -- this call is not inside the try block
              | .ok (s, trig, result?, _card) =>
                let flags := match result? with
                  | some r => { flags with halt := flags.halt || r.haltTurnAdvance }
                  | none => flags
                .ok (.inl (s, trig, flags))
            | none => .ok (.inl (s, trig ++ ["condition_failed:" ++ reason], flags))
          else .ok (.inl (s, trig ++ ["condition_failed:" ++ reason], flags))
    match condStep with
    | .error e => .error e
    | .ok (.inl (s, trig, flags)) => playEffectsLoop rng plugin a pid rest s card trig flags
    | .ok (.inr ()) =>
      let handler? : Option EffHandler :=
        match plugin with
        | some pl =>
          match lookupHandler pl.customEffects eff.etype with
          | some h => some h
          | none => effectHandlerFor eff.etype
        | none => effectHandlerFor eff.etype
      match handler? with
      | none =>
        let s := pushLog s "played" "action" (some pid) (some card.id)
        playEffectsLoop rng plugin a pid rest s card trig flags
      | some handler =>
        match handler rng s pid card eff a trig with
        | .error e =>
          -- caught by the try/except: the whole action returns a failure,
          -- keeping the mutations applied so far
          .ok (.inl ({ success := false, errorMsg := "Effect handler error: " ++ e,
                       triggered := [] }, s))
        | .ok (s, trig, result?, card) =>
          match result? with
          | none => playEffectsLoop rng plugin a pid rest s card trig flags
          | some r =>
            let flags := { flags with halt := flags.halt || r.haltTurnAdvance }
            let flags := if r.skip != 0 then
                { flags with skipExtra := max flags.skipExtra r.skip } else flags
            let flags := { flags with extraTurn := flags.extraTurn || r.extraTurn }
            let colorStep : Py (GameState × PlayFlags) :=
              if r.needsColorChoice then
                if (cfgOf s).colors.isEmpty then
                  .error "Game config must define colors array"  -- raised outside the try
                else
                  let pending := PendingAction.chooseColor pid card.id r.drawCount
                    r.isWildDraw r.drawNVal
                  .ok ({ s with phase := "awaiting_response", pendingAction := some pending },
                       { flags with halt := true })
              else .ok (s, flags)
            match colorStep with
            | .error e => .error e
            | .ok (s, flags) =>
              let (s, flags) :=
                if r.needsTarget then
                  let pending := PendingAction.selectTarget
                    (if r.pendingType == "" then "select_target" else r.pendingType)
                    pid card.id
                  ({ s with phase := "awaiting_response", pendingAction := some pending },
                   { flags with halt := true })
                else (s, flags)
              let (s, flags) :=
                if r.challengeWindow then
                  let (s, flags) :=
                    if !flags.halt then (advanceTurn s 0, { flags with skipExtra := 0 })
                    else (s, flags)
                  let pending := PendingAction.challengeOrAccept s.currentTurnPlayerId pid
                    r.drawCount
                  ({ s with phase := "awaiting_response", pendingAction := some pending },
                   { flags with halt := true })
                else (s, flags)
              playEffectsLoop rng plugin a pid rest s card trig flags

/-- `_action_play_card`. -/
def actionPlayCard (rng : RNG) (plugin : Option Plugin) (s : GameState) (a : Action) :
    Py ActionOut :=
  match getPlayer s a.playerId with
  | none => failRes s "Player not found"
  | some player =>
    if s.currentTurnPlayerId != player.id then failRes s "Not your turn"
    else if s.phase != "playing" then failRes s "Cannot play a card right now"
    else
      match player.hand.cards.find? (fun c => some c.id == a.cardId) with
      | none => failRes s "Card not in hand"
      | some card =>
        if !canPlayCard card s then failRes s "That card cannot be played right now"
        else
          -- plugin on_card_played lifecycle hook; its exceptions are
          -- caught at the boundary (a warning is printed, not logged)
          let hookStep : Sum ActionOut Bool :=
            match plugin with
            | none => .inr false
            | some pl =>
              match pl.onCardPlayed s player card with
              | .error _ => .inr false
              | .ok none => .inr false
              | .ok (some hr) =>
                if !hr.valid then
                  .inl ({ success := false,
                          errorMsg := if hr.error == "" then "Invalid play" else hr.error,
                          triggered := [] }, s)
                else .inr hr.haltTurnAdvance
          match hookStep with
          | .inl out => .ok out
          | .inr hookHalt =>
            let s := updatePlayer s player.id (fun p =>
              { p with hand := { p.hand with cards := removeCardById p.hand.cards card.id } })
            let s := match discardZone s with
              | some _ => updateZone s "discard_pile"
                  (fun z => { z with cards := card :: z.cards })
              | none => s
            let trig := ["played:" ++ card.subtype.getD "None"]
            match playEffectsLoop rng plugin a player.id card.effects s card trig {} with
            | .error e => .error e
            | .ok (.inl out) => .ok out
            | .ok (.inr (s, trig, flags)) =>
              if s.phase == "ended" then
                .ok ({ success := true, errorMsg := "", triggered := trig }, s)
              else
                let (won, s, trig) := checkWin s player.id trig
                if won then .ok ({ success := true, errorMsg := "", triggered := trig }, s)
                else
                  let playerNow := getPlayerD s player.id
                  let (s, trig) :=
                    if playerNow.hand.cards.length == 1 then
                      ({ s with metadata := { s.metadata with
                           unoCalledBy := some (s.metadata.unoCalledBy.getD []) } },
                       trig ++ ["uno_warning:" ++ player.id])
                    else (s, trig)
                  let s :=
                    if !flags.halt && !hookHalt then
                      if flags.extraTurn then { s with turnNumber := s.turnNumber + 1 }
                      else advanceTurn s flags.skipExtra
                    else s
                  .ok ({ success := true, errorMsg := "", triggered := trig }, s)

/-! ## The remaining universal action handlers (`universal.py`) -/

def totalZoneCards (s : GameState) : Nat :=
  (s.zones.map (fun z => z.cards.length)).sum

/-- The `while drawn and not _can_play_card(drawn[-1], state)` loop of
`_action_draw_card` (Crazy-Eights variant).  Each successful iteration
removes a card from the zones, so `totalZoneCards + 1` fuel suffices. -/
def drawUntilPlayable (rng : RNG) (pid : String) :
    Nat → GameState → List Card → GameState × List Card
  | 0, s, drawn => (s, drawn)
  | fuel+1, s, drawn =>
    match drawn.getLast? with
    | none => (s, drawn)
    | some last =>
      if canPlayCard last s then (s, drawn)
      else
        let (more, s) := drawN rng s pid 1
        if more.isEmpty then (s, drawn)
        else drawUntilPlayable rng pid fuel s (drawn ++ more)

/-- `_action_draw_card`. -/
def actionDrawCard (rng : RNG) (s : GameState) (a : Action) : Py ActionOut :=
  match getPlayer s a.playerId with
  | none => failRes s "Player not found"
  | some player =>
    if s.currentTurnPlayerId != player.id then failRes s "Not your turn"
    else if s.phase != "playing" then failRes s "Cannot draw right now"
    else
      let pending := s.metadata.pendingDraw.getD 0
      let n := if pending > 0 then pending else s.rules.turnStructure.drawCount
      let s := { s with metadata := { s.metadata with pendingDraw := some 0 } }
      let (drawn, s) := drawN rng s player.id n
      if pending > 0 then
        let s := pushLog s "stacked penalty drawn" "action" (some player.id)
        let s := advanceTurn s
        .ok ({ success := true, errorMsg := "", triggered := ["drew:" ++ toString n] }, s)
      else
        let s := pushLog s "drew" "action" (some player.id)
        let s :=
          if !drawn.isEmpty && (cfgOf s).drawUntilPlayable then
            (drawUntilPlayable rng player.id (totalZoneCards s + 1) s drawn).1
          else s
        let s := advanceTurn s
        .ok ({ success := true, errorMsg := "", triggered := ["drew:" ++ toString n] }, s)

/-- `_action_choose_color`. -/
def actionChooseColor (_rng : RNG) (s : GameState) (a : Action) : Py ActionOut :=
  match s.pendingAction with
  | some (.chooseColor ppid _pcid drawCount isWildDraw _drawN) =>
    if a.playerId != ppid then failRes s "Not your pending action"
    else
      let valid := (cfgOf s).colors
      if valid.isEmpty then failRes s "Game config must define colors array"
      else
        match a.metadata.color with
        | some col =>
          if !valid.contains col then failRes s ("Invalid color: " ++ col)
          else
            let s := { s with metadata := { s.metadata with activeColor := some col } }
            let s := match discardZone s with
              | some dz =>
                match dz.cards with
                | top :: _ => updateCardEverywhere s top.id
                    { top with metadata := { top.metadata with color := some col } }
                | [] => s
              | none => s
            let player? := getPlayer s ppid
            let s := pushLog s "chose color" "action" (some ppid)
            let trig := ["color_chosen:" ++ col]
            let s := { s with pendingAction := none, phase := "playing" }
            let winStep : Option ActionOut :=
              match player? with
              | some player =>
                let (won, s, trig) := checkWin s player.id trig
                if won then some ({ success := true, errorMsg := "", triggered := trig }, s)
                else none
              | none => none
            match winStep with
            | some out => .ok out
            | none =>
              -- note: checkWin returned (false, s, trig) leaves s/trig unchanged
              if isWildDraw && drawCount > 0 then
                if (cfgOf s).allowWildDraw4Challenge && (activePlayers s).length > 2 then
                  let s := advanceTurn s
                  let pending := PendingAction.challengeOrAccept
                    s.currentTurnPlayerId ppid drawCount
                  let s := { s with phase := "awaiting_response",
                                    pendingAction := some pending }
                  .ok ({ success := true, errorMsg := "",
                         triggered := trig ++ ["wild_draw_pending:" ++ toString drawCount] }, s)
                else
                  .ok ({ success := true, errorMsg := "", triggered := trig }, advanceTurn s)
              else
                .ok ({ success := true, errorMsg := "", triggered := trig }, advanceTurn s)
        | none => failRes s "Invalid color: None"
  | _ => failRes s "No color choice pending"

/-- `_action_insert_card`. -/
def actionInsertCard (rng : RNG) (s : GameState) (a : Action) : Py ActionOut :=
  match s.pendingAction with
  | some (.insertCard ppid bomb) =>
    if a.playerId != ppid then failRes s "Not your action"
    else
      let draw? := drawZone s
      let deckLen := (draw?.map (fun z => z.cards.length)).getD 0
      let pos : Int := a.metadata.position.getD ((rng.randPos % (deckLen + 1) : Nat) : Int)
      let pos := max 0 (min pos (deckLen : Int))
      let s := match draw? with
        | some _ => updateZone s "draw_pile" (fun z =>
            { z with cards := z.cards.take pos.toNat ++ [bomb] ++ z.cards.drop pos.toNat })
        | none => s
      let s := { s with pendingAction := none, phase := "playing" }
      let s := pushLog s "card reinserted" "system"
      .ok ({ success := true, errorMsg := "", triggered := ["card_inserted"] }, advanceTurn s)
  | _ => failRes s "No insert pending"

/-- `_action_give_card`. -/
def actionGiveCard (rng : RNG) (s : GameState) (a : Action) : Py ActionOut :=
  match s.pendingAction with
  | some (.giveCard ppid targetPid) =>
    if a.playerId != targetPid then failRes s "Not your action"
    else
      match getPlayer s targetPid, getPlayer s ppid with
      | some giver, some receiver =>
        let transfer := fun (card : Card) =>
          let s := updatePlayer s giver.id (fun p =>
            { p with hand := { p.hand with cards := removeCardById p.hand.cards card.id } })
          let s := updatePlayer s receiver.id (fun p =>
            { p with hand := { p.hand with cards := p.hand.cards ++ [card] } })
          let s := { s with pendingAction := none, phase := "playing" }
          let s := pushLog s "gave a card" "effect" (some giver.id)
          Except.ok (({ success := true, errorMsg := "",
                        triggered := ["give_resolved"] } : ActionRes), advanceTurn s)
        let card? := match a.metadata.cardId <|> a.cardId with
          | some cid => giver.hand.cards.find? (fun c => c.id == cid)
          | none => none
        match card? with
        | some card => transfer card
        | none =>
          if giver.hand.cards.isEmpty then failRes s "No cards to give"
          else
            match pickCard rng giver.hand.cards with
            | .error e => .error e
            | .ok card => transfer card
      | _, _ => failRes s "Player not found"
  | _ => failRes s "No give_card pending"

/-- `_action_challenge`. -/
def actionChallenge (rng : RNG) (s : GameState) (a : Action) : Py ActionOut :=
  match s.pendingAction with
  | some (.challengeOrAccept ppid challengedPid drawCount) =>
    if a.playerId != ppid then failRes s "Not your challenge"
    else
      let challenger? := getPlayer s ppid
      let challenged? := getPlayer s challengedPid
      let doChallenge := a.metadata.challenge
      let s := { s with pendingAction := none, phase := "playing",
                        metadata := { s.metadata with pendingDraw := some 0 } }
      if !doChallenge then
        let s := match challenger? with
          | some ch =>
            let (_, s) := drawN rng s ch.id drawCount
            pushLog s "accepted" "action" (some ch.id)
          | none => s
        .ok ({ success := true, errorMsg := "",
               triggered := ["accepted:" ++ toString drawCount] }, advanceTurn s)
      else
        if s.metadata.lastWildDraw4WasIllegal then
          let s := match challenged? with
            | some cd =>
              let (_, s) := drawN rng s cd.id 4
              pushLog s "challenge success" "effect"
            | none => s
          -- the challenger stays current and plays
          .ok ({ success := true, errorMsg := "", triggered := ["challenge_success"] }, s)
        else
          let penalty := drawCount + 2
          let s := match challenger? with
            | some ch =>
              let (_, s) := drawN rng s ch.id penalty
              pushLog s "challenge failed" "effect"
            | none => s
          .ok ({ success := true, errorMsg := "",
                 triggered := ["challenge_failed:" ++ toString penalty] }, advanceTurn s)
  | _ => failRes s "No challenge pending"

/-- `_action_select_target`. -/
def actionSelectTarget (rng : RNG) (s : GameState) (a : Action) : Py ActionOut :=
  match s.pendingAction with
  | none => failRes s "No pending action"
  | some (.giveCard _ _) => actionGiveCard rng s a
  | some (.challengeOrAccept _ _ _) => actionChallenge rng s a
  | some _ => failRes s "Unknown pending type"

/-- `_action_call_uno`. -/
def actionCallUno (_rng : RNG) (s : GameState) (a : Action) : Py ActionOut :=
  match getPlayer s a.playerId with
  | none => failRes s "Can only call UNO with exactly 1 card"
  | some player =>
    if player.hand.cards.length != 1 then
      failRes s "Can only call UNO with exactly 1 card"
    else
      let called := s.metadata.unoCalledBy.getD []
      let called := if called.contains player.id then called else called ++ [player.id]
      let s := { s with metadata := { s.metadata with unoCalledBy := some called } }
      let s := pushLog s "calls UNO" "effect" (some player.id)
      .ok ({ success := true, errorMsg := "", triggered := ["uno_called"] }, s)

/-- `_action_catch_uno` — note: no phase check. -/
def actionCatchUno (rng : RNG) (s : GameState) (a : Action) : Py ActionOut :=
  let target? := match a.targetPlayerId with
    | some tid => getPlayer s tid
    | none => none
  match target?, getPlayer s a.playerId with
  | some target, some catcher =>
    if (s.metadata.unoCalledBy.getD []).contains target.id then
      failRes s (target.name ++ " already called UNO")
    else if target.hand.cards.length != 1 then
      failRes s "That player does not have 1 card"
    else
      let (_, s) := drawN rng s target.id 2
      let s := pushLog s "caught UNO" "effect" (some catcher.id)
      .ok ({ success := true, errorMsg := "",
             triggered := ["caught_uno:" ++ target.id] }, s)
  | _, _ => failRes s "Player not found"

/-- The fall-back dispatch table of `apply_action`. -/
def universalDispatch (rng : RNG) (plugin : Option Plugin) (s : GameState) (a : Action) :
    Py ActionOut :=
  if a.atype == "play_card" then actionPlayCard rng plugin s a
  else if a.atype == "draw_card" then actionDrawCard rng s a
  else if a.atype == "choose_color" then actionChooseColor rng s a
  else if a.atype == "insert_card" then actionInsertCard rng s a
  else if a.atype == "give_card" then actionGiveCard rng s a
  else if a.atype == "select_target" then actionSelectTarget rng s a
  else if a.atype == "call_uno" then actionCallUno rng s a
  else if a.atype == "catch_uno" then actionCatchUno rng s a
  else if a.atype == "challenge" then actionChallenge rng s a
  else .ok ({ success := false, errorMsg := "Unknown action: " ++ a.atype,
              triggered := [] }, s)

/-- `apply_action`: plugin custom actions are tried first (with no
try/except around the call), then the universal dispatch table. -/
def applyAction (rng : RNG) (plugin : Option Plugin) (s : GameState) (a : Action) :
    Py ActionOut :=
  match plugin with
  | some pl =>
    match lookupHandler pl.customActions a.atype with
    | some h => h rng s a
    | none => universalDispatch rng plugin s a
  | none => universalDispatch rng none s a

/-! ## Setup (`setup_game` in `universal.py`, deck building in
`game_loader.py`) -/

/-- `build_deck_from_definitions` (`game_loader.py`). -/
def buildDeckFromDefinitions (cardDefs : List CardDefinition)
    (excludeIds : List String) : List Card :=
  cardDefs.foldl (fun deck defn =>
    if excludeIds.contains defn.id then deck
    else deck ++ (List.range defn.count).map (fun i =>
      { id := defn.id ++ "_" ++ toString i
        definitionId := defn.id
        name := defn.name
        ctype := defn.ctype
        subtype := some (defn.subtype.getD defn.id)
        description := defn.description
        effects := defn.effects
        isPlayable := defn.isPlayable
        isReaction := defn.isReaction
        metadata := defn.metadata })) []

/-- The `guaranteedInStartHand` pass of the dealing loop: for each such
definition, move the first matching deck card into the hand. -/
def takeGuaranteed (cardDefs : List CardDefinition) (deck : List Card) :
    List Card × List Card :=
  cardDefs.foldl (fun (acc : List Card × List Card) defn =>
    let (deck, hand) := acc
    if defn.guaranteedInStartHand then
      match deck.find? (fun c => c.definitionId == defn.id) with
      | some c => (removeCardById deck c.id, hand ++ [c])
      | none => (deck, hand)
    else (deck, hand)) (deck, [])

/-- Repeated `deck.pop()` (from the back), returning the popped cards in
pop order. -/
def popMany : Nat → List Card → (List Card × List Card)
  | 0, deck => (deck, [])
  | k+1, deck =>
    match deck.getLast? with
    | none => (deck, [])
    | some c =>
      let (deck, rest) := popMany k deck.dropLast
      (deck, c :: rest)

/-- The dealing loop of `setup_game` (index `i` tracks `enumerate`). -/
def dealHands (cardDefs : List CardDefinition) (handSize : Nat) :
    List Player → List Card → Nat → (List Player × List Card)
  | [], deck, _ => ([], deck)
  | p :: rest, deck, i =>
    let (deck, guaranteed) := takeGuaranteed cardDefs deck
    let remaining := handSize - guaranteed.length
    let k := min remaining deck.length
    let (deck, popped) := popMany k deck
    let p := { p with
      hand := { playerId := p.id, cards := guaranteed ++ popped, isVisible := true }
      status := "active"
      isCurrentTurn := i == 0
      turnCount := 1 }
    let (ps, deck) := dealHands cardDefs handSize rest deck (i+1)
    (p :: ps, deck)

/-- The injected-card pass of `setup_game` (e.g. Exploding Kittens
bombs added after dealing). -/
def injectCards (playerCount : Nat) (cardDefs : List CardDefinition)
    (deck : List Card) : List Card :=
  cardDefs.foldl (fun deck defn =>
    let inject := if defn.injectPlayersMinusOne then playerCount - 1 else defn.injectCount
    if inject > 0 then
      deck ++ (List.range inject).map (fun j =>
        { id := defn.id ++ "_injected_" ++ toString j
          definitionId := defn.id
          name := defn.name
          ctype := defn.ctype
          subtype := some (defn.subtype.getD defn.id)
          description := defn.description
          effects := defn.effects
          isPlayable := defn.isPlayable
          isReaction := defn.isReaction
          metadata := defn.metadata })
    else deck) deck

/-- `setup_game` (`universal.py`).  `_apply_card_color_map` injects only
cosmetic metadata read by no engine logic and is modelled as unset; an
empty room would raise an `IndexError` at `state.players[0]`, modelled
by the `""` fallback. -/
def setupGame (rng : RNG) (s : GameState) : GameState :=
  let cardDefs := s.metadata.cardDefinitions
  let cfg := cfgOf s
  let excludeIds := (cardDefs.filter (fun d => d.notInStartDeck)).map (fun d => d.id)
  let deck := buildDeckFromDefinitions cardDefs excludeIds
  let deck := rng.shuffle deck
  let (players, deck) := dealHands cardDefs s.rules.handSize s.players deck 0
  let s := { s with players := players }
  let deck := injectCards s.players.length cardDefs deck
  let deck := rng.shuffle deck
  let zoneDefs := if cfg.zoneDefs.isEmpty then
      [({ id := "draw_pile", name := "Draw Pile", ztype := "deck",
          isPublic := false } : ZoneDef),
       ({ id := "discard_pile", name := "Discard Pile", ztype := "discard",
          isPublic := true } : ZoneDef)]
    else cfg.zoneDefs
  let zones := zoneDefs.map (fun z =>
    ({ id := z.id, name := z.name, ztype := z.ztype, cards := [],
       isPublic := z.isPublic } : Zone))
  let zones := updateFirst (fun z => z.ztype == "deck")
    (fun z => { z with cards := deck }) zones
  let (zones, firstDiscard) :=
    if cfg.startWithDiscard then
      match zones.find? (fun z => z.ztype == "deck"),
            zones.find? (fun z => z.ztype == "discard") with
      | some dz, some _ =>
        let excl := cfg.excludeFromStartDiscard
        match dz.cards.find? (fun c =>
            !(match c.subtype with
              | some st => excl.contains st
              | none => false)) with
        | some first =>
          let zones := updateFirst (fun z => z.ztype == "deck")
            (fun z => { z with cards := removeCardById z.cards first.id }) zones
          let zones := updateFirst (fun z => z.ztype == "discard")
            (fun z => { z with cards := [first] }) zones
          (zones, some first)
        | none => (zones, none)
      | _, _ => (zones, none)
    else (zones, none)
  let s := { s with zones := zones }
  let s := match firstDiscard with
    | some first => setActiveColor s first
    | none => s
  let firstPid := match s.players with
    | p :: _ => p.id
    | [] => ""
  let zeroScores : List (String × Int) := s.players.map (fun p => (p.id, 0))
  let s := { s with
    currentTurnPlayerId := firstPid
    turnNumber := 1
    phase := "playing" }
  let s := { s with metadata := { s.metadata with
    direction := some (s.metadata.direction.getD 1)
    pendingDraw := some (s.metadata.pendingDraw.getD 0)
    scores := some (s.metadata.scores.getD zeroScores) } }
  let s :=
    if cfg.matchColor && s.metadata.activeColor == none then
      match discardZone s with
      | some dz =>
        match dz.cards with
        | first :: _ => setActiveColor s first
        | [] => s
      | none => s
    else s
  pushLog s "game started" "system"

/-! ## Exploding Kittens plugin (`exploding_kittens.py`)

`state.turnNumber` is a plain `Int` in this model, so the plugin's
`if state.turnNumber is None` guards are identically skipped. -/

/-- The `type` string of a stored pending-action dict. -/
def pendingTypeName : PendingAction → String
  | .chooseColor _ _ _ _ _ => "choose_color"
  | .insertCard _ _ => "insert_card"
  | .giveCard _ _ => "give_card"
  | .selectTarget t _ _ => t
  | .challengeOrAccept _ _ _ => "challenge_or_accept"
  | .nopeWindow _ _ _ _ _ _ _ _ => "nope_window"
  | .insertExploding _ _ => "insert_exploding"
  | .favor _ _ => "favor"

/-- The inline next-player step shared by `_effect_attack` and
`_advance_turn_with_attacks`: a fixed `+1` step over the active list,
index `-1` when the current player is not active any more. -/
def ekAdvance (s : GameState) : GameState :=
  match activePlayers s with
  | [] => s
  | active =>
    let ids := active.map (fun p => p.id)
    let idx : Int := match ids.indexOf? s.currentTurnPlayerId with
      | some i => (i : Int)
      | none => -1
    match active.get? (((idx + 1) % (active.length : Int)).toNat) with
    | none => s
    | some nxt =>
      { s with
        players := s.players.map (fun p => { p with isCurrentTurn := p.id == nxt.id })
        currentTurnPlayerId := nxt.id
        turnNumber := s.turnNumber + 1 }

/-- `_advance_turn_with_attacks`: decrement the attack stack first and
keep the turn while draws are still owed. -/
def advanceTurnWithAttacks (s : GameState) : GameState :=
  let attacks := s.metadata.attacksPending.getD 0
  if attacks > 0 then
    let attacks := attacks - 1
    let s := { s with metadata := { s.metadata with attacksPending := some attacks } }
    if attacks > 0 then s else ekAdvance s
  else ekAdvance s

/-- EK `_effect_skip`: cancels one attack turn, then ends the turn. -/
def ekEffectSkip : EffHandler := fun _rng s pid card _eff _a trig =>
  let s := pushLog s "played skip" "action" (some pid) (some card.id)
  let attacks := s.metadata.attacksPending.getD 0
  let s := if attacks > 0 then
      { s with metadata := { s.metadata with attacksPending := some (attacks - 1) } }
    else s
  let s := advanceTurnWithAttacks s
  .ok (s, trig ++ ["skipped"], some { haltTurnAdvance := true }, card)

/-- EK `_effect_attack`: advance to the next player, then stack 2 owed
draws onto the new current player. -/
def ekEffectAttack : EffHandler := fun _rng s pid card _eff _a trig =>
  match activePlayers s with
  | [] => .ok (s, trig, some { haltTurnAdvance := true }, card)
  | _ =>
    let s := ekAdvance s
    let current := s.metadata.attacksPending.getD 0
    let s := { s with metadata := { s.metadata with attacksPending := some (current + 2) } }
    let s := pushLog s "attacked" "action" (some pid) (some card.id)
    .ok (s, trig ++ ["attacked"], some { haltTurnAdvance := true }, card)

/-- EK `_effect_give` (Favor): sets up a `favor` pending action. -/
def ekEffectGive : EffHandler := fun _rng s pid card _eff a trig =>
  let target? := match a.targetPlayerId <|> a.metadata.targetPlayerId with
    | some tid => getPlayer s tid
    | none => none
  match target? with
  | none => .ok (s, trig, some { needsTarget := true, pendingType := "give" }, card)
  | some target =>
    if target.hand.cards.isEmpty then
      .ok (pushLog s "favor target empty" "action", trig,
           some { haltTurnAdvance := true }, card)
    else
      let s := pushLog s "asks for a card" "action" (some pid) (some card.id)
      let s := { s with phase := "awaiting_response"
                        pendingAction := some (.favor pid target.id) }
      .ok (s, trig ++ ["give_pending"], some { haltTurnAdvance := true }, card)

/-- EK `_effect_shuffle`. -/
def ekEffectShuffle : EffHandler := fun rng s pid card _eff _a trig =>
  let s := match drawZone s with
    | some _ => updateZone s "draw_pile" (fun z => { z with cards := rng.shuffle z.cards })
    | none => s
  let s := pushLog s "shuffled" "action" (some pid) (some card.id)
  .ok (s, trig ++ ["shuffled"], some { haltTurnAdvance := true }, card)

/-- EK `_effect_peek` (See the Future): records the peeked cards in the
player's metadata. -/
def ekEffectPeek : EffHandler := fun _rng s pid card eff _a trig =>
  match drawZone s with
  | some draw =>
    if draw.cards.isEmpty then
      .ok (pushLog s "peek at empty deck" "action" (some pid) (some card.id), trig,
           some { haltTurnAdvance := true }, card)
    else
      -- `effect.get("value", 3)` may hold the stored `None`: a `[:None]`
      -- slice takes the whole list
      let topCards := match eff.value with
        | some n => draw.cards.take n.toNat
        | none => draw.cards
      let s := updatePlayer s pid (fun p =>
        { p with metadata := { p.metadata with peekedCards := topCards } })
      let s := pushLog s "peeked" "action" (some pid) (some card.id)
      let names := String.intercalate "," (topCards.map (fun c => c.name))
      .ok (s, trig ++ ["top" ++ pyShowOptInt eff.value ++ ":" ++ names],
           some { haltTurnAdvance := true }, card)
  | none =>
    .ok (pushLog s "peek at empty deck" "action" (some pid) (some card.id), trig,
         some { haltTurnAdvance := true }, card)

/-- EK `_effect_steal` (cat combo): steal a random card. -/
def ekEffectSteal : EffHandler := fun rng s pid card _eff a trig =>
  let target? := match a.targetPlayerId <|> a.metadata.targetPlayerId with
    | some tid => getPlayer s tid
    | none => none
  match target? with
  | none => .ok (pushLog s "combo without target" "action", trig,
                 some { haltTurnAdvance := true }, card)
  | some target =>
    if target.hand.cards.isEmpty then
      .ok (pushLog s "combo without target" "action", trig,
           some { haltTurnAdvance := true }, card)
    else
      match pickCard rng target.hand.cards with
      | .error e => .error e
      | .ok stolen =>
        let s := updatePlayer s target.id (fun p =>
          { p with hand := { p.hand with cards := removeCardById p.hand.cards stolen.id } })
        let s := updatePlayer s pid (fun p =>
          { p with hand := { p.hand with cards := p.hand.cards ++ [stolen] } })
        let s := pushLog s "stole a card" "action" (some pid) (some card.id)
        .ok (s, trig ++ ["stolen:" ++ target.id], some { haltTurnAdvance := true }, card)

/-- `get_custom_effects` of the EK plugin. -/
def ekCustomEffects : List (String × EffHandler) :=
  [("attack", ekEffectAttack), ("skip", ekEffectSkip), ("give", ekEffectGive),
   ("shuffle", ekEffectShuffle), ("peek", ekEffectPeek), ("steal", ekEffectSteal)]

/-- `_handle_play_card`: validate, spend the card(s), and open a nope
window instead of executing the effects. -/
def ekHandlePlayCard : ActionHandler := fun _rng s a =>
  match getPlayer s a.playerId with
  | none => failRes s "Player not found"
  | some player =>
    if s.currentTurnPlayerId != player.id then failRes s "Not your turn"
    else if s.phase != "playing" then failRes s "Cannot play a card right now"
    else
      match player.hand.cards.find? (fun c => some c.id == a.cardId) with
      | none => failRes s "Card not in hand"
      | some card =>
        let comboStep : Sum ActionOut (Option Card) :=
          match a.metadata.comboPairId with
          | none => .inr none
          | some cpid =>
            match player.hand.cards.find? (fun c => c.id == cpid && c.id != card.id) with
            | none => .inl ({ success := false, errorMsg := "Combo pair card not in hand",
                              triggered := [] }, s)
            | some cp =>
              if cp.subtype != card.subtype then
                .inl ({ success := false, errorMsg := "Combo pair cards must match",
                        triggered := [] }, s)
              else .inr (some cp)
        match comboStep with
        | .inl out => .ok out
        | .inr comboPair? =>
          let s := updatePlayer s player.id (fun p =>
            { p with hand := { p.hand with cards := removeCardById p.hand.cards card.id } })
          let s := match discardZone s with
            | some _ => updateZone s "discard_pile"
                (fun z => { z with cards := card :: z.cards })
            | none => s
          let s := match comboPair? with
            | some cp =>
              let s := updatePlayer s player.id (fun p =>
                { p with hand := { p.hand with cards := removeCardById p.hand.cards cp.id } })
              match discardZone s with
              | some _ => updateZone s "discard_pile"
                  (fun z => { z with cards := cp :: z.cards })
              | none => s
            | none => s
          let s := pushLog s "played waiting for nopes" "action" (some player.id) (some card.id)
          let orig : Action := { atype := "", playerId := a.playerId, cardId := a.cardId,
                                 targetPlayerId := a.targetPlayerId, metadata := a.metadata }
          let pending := PendingAction.nopeWindow player.id card.id card card.name
            card.effects orig 0 none
          let s := { s with phase := "awaiting_response", pendingAction := some pending }
          .ok ({ success := true, errorMsg := "",
                 triggered := ["nope_window:" ++ card.subtype.getD "None"] }, s)

/-- The effect loop of `_handle_resolve_nope_window`: plugin effects
first, then the universal table; handler exceptions are printed and
skipped; only `needs_target` interrupts the loop. -/
def ekResolveEffectsLoop (rng : RNG) (pid : String) (proxy : Action) :
    List CardEffect → GameState → Card → List String → (GameState × List String)
  | [], s, _card, trig => (s, trig)
  | eff :: rest, s, card, trig =>
    let handler? := match lookupHandler ekCustomEffects eff.etype with
      | some h => some h
      | none => effectHandlerFor eff.etype
    match handler? with
    | none => ekResolveEffectsLoop rng pid proxy rest s card trig
    | some handler =>
      match handler rng s pid card eff proxy trig with
      | .error _ => ekResolveEffectsLoop rng pid proxy rest s card trig
      | .ok (s, trig, result?, card) =>
        match result? with
        | none => ekResolveEffectsLoop rng pid proxy rest s card trig
        | some r =>
          if r.needsTarget then
            let pending := PendingAction.selectTarget
              (if r.pendingType == "" then "select_target" else r.pendingType) pid card.id
            ({ s with phase := "awaiting_response", pendingAction := some pending }, trig)
          else ekResolveEffectsLoop rng pid proxy rest s card trig

/-- `_handle_resolve_nope_window`: an odd nope count cancels the action
(the spent card stays on the discard pile), an even count executes the
recorded effects. -/
def ekResolveNopeWindow : ActionHandler := fun rng s _a =>
  match s.pendingAction with
  | some (.nopeWindow cardPlayerId _pcid card _cardName effects orig nopeCount _ln) =>
    let s := { s with pendingAction := none, phase := "playing" }
    if nopeCount % 2 == 1 then
      let s := pushLog s "cancelled by nope" "system"
      .ok ({ success := true, errorMsg := "",
             triggered := ["noped", "nope_resolved"] }, s)
    else
      match getPlayer s cardPlayerId with
      | none => failRes s "Player not found"
      | some player =>
        let s := pushLog s "takes effect" "system"
        let trig := ["played:" ++ card.subtype.getD "None"]
        let (s, trig) := ekResolveEffectsLoop rng player.id orig effects s card trig
        .ok ({ success := true, errorMsg := "", triggered := trig }, s)
  | _ => failRes s "No nope window to resolve"

/-- `_handle_draw_card`: drawing ends the turn; an exploding kitten
eliminates or is defused.  Note there is no phase check. -/
def ekHandleDrawCard : ActionHandler := fun _rng s a =>
  match getPlayer s a.playerId with
  | none => failRes s "Player not found"
  | some player =>
    if s.currentTurnPlayerId != player.id then failRes s "Not your turn"
    else
      match drawZone s with
      | none => failRes s "Draw pile is empty"
      | some draw =>
        match draw.cards with
        | [] => failRes s "Draw pile is empty"
        | drawn :: _ =>
          let s := updateZone s "draw_pile" (fun z => { z with cards := z.cards.drop 1 })
          if drawn.subtype == some "exploding" then
            match player.hand.cards.find? (fun c => c.subtype == some "defuse") with
            | some defuse =>
              let s := updatePlayer s player.id (fun p =>
                { p with hand := { p.hand with
                    cards := removeCardById p.hand.cards defuse.id } })
              match discardZone s with
              | none => .error "AttributeError: NoneType has no attribute cards"
              | some _ =>
                let s := updateZone s "discard_pile"
                  (fun z => { z with cards := defuse :: z.cards })
                let s := pushLog s "defused" "effect" (some player.id)
                let s := { s with phase := "awaiting_response"
                                  pendingAction := some (.insertExploding player.id drawn) }
                .ok ({ success := true, errorMsg := "", triggered := ["defused"] }, s)
            | none =>
              let s := updatePlayer s player.id (fun p => { p with status := "eliminated" })
              match discardZone s with
              | none => .error "AttributeError: NoneType has no attribute cards"
              | some _ =>
                let s := updateZone s "discard_pile"
                  (fun z => { z with cards := drawn :: z.cards })
                let s := pushLog s "exploded" "effect" (some player.id)
                match activePlayers s with
                | [w] =>
                  let s := updatePlayer s w.id (fun p => { p with status := "winner" })
                  let s := { s with winner := some { w with status := "winner" }
                                    phase := "ended" }
                  let s := pushLog s "wins" "system"
                  .ok ({ success := true, errorMsg := "", triggered := ["exploded"] }, s)
                | _ =>
                  let s := advanceTurnWithAttacks s
                  .ok ({ success := true, errorMsg := "", triggered := ["exploded"] }, s)
          else
            let s := updatePlayer s player.id (fun p =>
              { p with hand := { p.hand with cards := p.hand.cards ++ [drawn] } })
            let s := pushLog s "drew a card" "action" (some player.id)
            let s := advanceTurnWithAttacks s
            .ok ({ success := true, errorMsg := "", triggered := [] }, s)

/-- `_handle_insert_exploding`. -/
def ekHandleInsertExploding : ActionHandler := fun rng s a =>
  if s.phase != "awaiting_response" then failRes s "No pending insert action"
  else
    match s.pendingAction with
    | some (.insertExploding ppid bomb) =>
      if a.playerId != ppid then failRes s "Not your action"
      else
        match drawZone s with
        | none => .error "AttributeError: NoneType has no attribute cards"
        | some draw =>
          let pos : Int := a.metadata.position.getD
            ((rng.randPos % (draw.cards.length + 1) : Nat) : Int)
          let pos := max 0 (min pos (draw.cards.length : Int))
          let s := updateZone s "draw_pile" (fun z =>
            { z with cards := z.cards.take pos.toNat ++ [bomb] ++ z.cards.drop pos.toNat })
          let s := { s with pendingAction := none, phase := "playing" }
          let s := pushLog s "bomb reinserted" "system"
          let s := advanceTurnWithAttacks s
          .ok ({ success := true, errorMsg := "", triggered := ["bomb_inserted"] }, s)
    | _ => failRes s "No pending insert action"

/-- `_handle_give_card` (Favor resolution): transfers a card and does
*not* advance the turn. -/
def ekHandleGiveCard : ActionHandler := fun rng s a =>
  match s.pendingAction with
  | some (.favor ppid targetPid) =>
    if a.playerId != targetPid then failRes s "Not your action"
    else
      match getPlayer s targetPid, getPlayer s ppid with
      | some giver, some receiver =>
        let transfer := fun (card : Card) =>
          let s := updatePlayer s giver.id (fun p =>
            { p with hand := { p.hand with cards := removeCardById p.hand.cards card.id } })
          let s := updatePlayer s receiver.id (fun p =>
            { p with hand := { p.hand with cards := p.hand.cards ++ [card] } })
          let s := { s with pendingAction := none, phase := "playing" }
          let s := pushLog s "gave a card" "effect" (some giver.id)
          Except.ok (({ success := true, errorMsg := "",
                        triggered := ["give_resolved"] } : ActionRes), s)
        let card? := match a.metadata.cardId <|> a.cardId with
          | some cid => giver.hand.cards.find? (fun c => c.id == cid)
          | none => none
        match card? with
        | some card => transfer card
        | none =>
          if giver.hand.cards.isEmpty then failRes s "No cards to give"
          else
            match pickCard rng giver.hand.cards with
            | .error e => .error e
            | .ok card => transfer card
      | _, _ => failRes s "Player not found"
  | _ => failRes s "No favor pending"

/-- `_handle_nope`: spend a Nope card and toggle the pending action's
nope count; the window stays open for counter-nopes. -/
def ekHandleNope : ActionHandler := fun _rng s a =>
  match getPlayer s a.playerId with
  | none => failRes s "Player not found"
  | some player =>
    let nopeCard? : Option Card := match a.cardId with
      | some cid => player.hand.cards.find?
          (fun c => c.id == cid && c.subtype == some "nope")
      | none => player.hand.cards.find? (fun c => c.subtype == some "nope")
    match nopeCard? with
    | none => failRes s "No Nope card in hand"
    | some nopeCard =>
      match s.pendingAction with
      | none => failRes s "Nothing to Nope"
      | some pending =>
        if pendingTypeName pending == "insert_exploding" then
          failRes s "Cannot Nope this action"
        else
          let s := updatePlayer s player.id (fun p =>
            { p with hand := { p.hand with cards := removeCardById p.hand.cards nopeCard.id } })
          let s := match discardZone s with
            | some _ => updateZone s "discard_pile"
                (fun z => { z with cards := nopeCard :: z.cards })
            | none => s
          -- `pending["nopeCount"] += 1`: only a nope_window ever reads the
          -- count back, so scribbling it on another pending dict is inert
          let (s, nopeCount) := match pending with
            | .nopeWindow ppid pcid card cardName effects orig cnt _ln =>
              ({ s with pendingAction := some (.nopeWindow ppid pcid card cardName effects
                   orig (cnt + 1) (some player.id)) }, cnt + 1)
            | other => ({ s with pendingAction := some other }, 1)
          let s := pushLog s "played nope" "action" (some player.id) (some nopeCard.id)
          if nopeCount % 2 == 1 then
            let s := pushLog s "noped" "system"
            .ok ({ success := true, errorMsg := "", triggered := ["noped"] }, s)
          else
            let s := pushLog s "nope was noped" "system"
            .ok ({ success := true, errorMsg := "", triggered := ["nope_noped"] }, s)

/-- The Exploding Kittens plugin capability set
(`ExplodingKittensPlugin`): its `on_card_played` hook always halts the
automatic turn advance. -/
def ekPlugin : Plugin :=
  { customActions := [("play_card", ekHandlePlayCard), ("draw_card", ekHandleDrawCard),
      ("insert_exploding", ekHandleInsertExploding), ("give_card", ekHandleGiveCard),
      ("nope", ekHandleNope), ("resolve_nope_window", ekResolveNopeWindow)]
    customEffects := ekCustomEffects
    onCardPlayed := fun _ _ _ => .ok (some { haltTurnAdvance := true }) }

/-! ## Observation helpers used by the claim statements -/

/-- The state a successful engine call returned; `dflt` if it raised. -/
def outState (r : Py ActionOut) (dflt : GameState) : GameState :=
  match r with
  | .ok (_, s) => s
  | .error _ => dflt

/-- The result tuple of an engine call that did not raise. -/
def outRes (r : Py ActionOut) : Option ActionRes :=
  match r with
  | .ok (res, _) => some res
  | .error _ => none

/-- Whether the call ended in an uncaught exception. -/
def raised (r : Py ActionOut) : Bool :=
  match r with
  | .error _ => true
  | .ok _ => false

/-- Occurrences of card id `cid` across all zones. -/
def countCardInZones (s : GameState) (cid : String) : Nat :=
  (s.zones.map (fun z => (z.cards.filter (fun c => c.id == cid)).length)).sum

/-- Occurrences of card id `cid` across all hands. -/
def countCardInHands (s : GameState) (cid : String) : Nat :=
  (s.players.map (fun p => (p.hand.cards.filter (fun c => c.id == cid)).length)).sum

/-- Occurrences of card id `cid` across the whole room. -/
def totalCardCount (s : GameState) (cid : String) : Nat :=
  countCardInZones s cid + countCardInHands s cid

/-- The hand size of player `pid`. -/
def handSizeOf (s : GameState) (pid : String) : Nat :=
  (((getPlayer s pid)).map (fun p => p.hand.cards.length)).getD 0

/-- The cards of the draw pile. -/
def drawPileCards (s : GameState) : List Card :=
  ((drawZone s).map (fun z => z.cards)).getD []

/-- The cards of the discard pile. -/
def discardPileCards (s : GameState) : List Card :=
  ((discardZone s).map (fun z => z.cards)).getD []

/-- The active players currently flagged as having the turn. -/
def flaggedActivePlayers (s : GameState) : List Player :=
  (activePlayers s).filter (fun p => p.isCurrentTurn)

/-- The attack accumulator (`state.metadata.get("attacks_pending", 0) or 0`). -/
def attacksPendingOf (s : GameState) : Int :=
  s.metadata.attacksPending.getD 0

/-! ## Concrete fixtures -/

/-- A fresh lobby player. -/
def mkPlayer (pid : String) : Player :=
  { id := pid, name := pid, hand := { playerId := pid, cards := [] } }

def elimEffect : CardEffect := { etype := "eliminate", target := some "self" }

def anyEffect : CardEffect := { etype := "any" }

/-- A bomb-style definition: one copy guaranteed into each starting
hand, a single self-targeting eliminate effect. -/
def bombDef : CardDefinition :=
  { id := "bomb", name := "Bomb", ctype := "special",
    effects := [elimEffect], count := 3, guaranteedInStartHand := true }

def fillerDef : CardDefinition :=
  { id := "filler", name := "Filler", ctype := "action",
    effects := [anyEffect], count := 5 }

/-- 3-player last-standing room about to start: claim C1's setup. -/
def c1Lobby : GameState :=
  { rules := { winCondition := { wtype := "last_standing" }, handSize := 1 }
    players := [mkPlayer "p1", mkPlayer "p2", mkPlayer "p3"]
    metadata := { cardDefinitions := [bombDef, fillerDef] } }

def c1Start : GameState := setupGame idRNG c1Lobby

def c1Play : Action := { atype := "play_card", playerId := "p1", cardId := some "bomb_0" }

/-- A plain card with a single cosmetic effect. -/
def mkCardSimple (cid subty : String) : Card :=
  { id := cid, definitionId := subty, name := cid, ctype := "action",
    subtype := some subty, effects := [anyEffect] }

def mkHandPlayer (pid : String) (cards : List Card) : Player :=
  { id := pid, name := pid, status := "active",
    hand := { playerId := pid, cards := cards } }

def mkDrawZone (cards : List Card) : Zone :=
  { id := "draw_pile", name := "Draw Pile", ztype := "deck", cards := cards,
    isPublic := false }

def mkDiscardZone (cards : List Card) : Zone :=
  { id := "discard_pile", name := "Discard Pile", ztype := "discard", cards := cards }

/-- An ended game whose winner `p1` holds nothing and whose loser `p2`
still holds exactly one card — claim C2's counterexample input. -/
def c2Ended : GameState :=
  { rules := { winCondition := { wtype := "empty_hand" } }
    phase := "ended"
    players := [
      { mkHandPlayer "p1" [] with status := "winner", isCurrentTurn := true },
      mkHandPlayer "p2" [mkCardSimple "h1" "number"] ]
    zones := [mkDrawZone [mkCardSimple "d1" "number", mkCardSimple "d2" "number",
                          mkCardSimple "d3" "number"],
              mkDiscardZone [mkCardSimple "t1" "number"]]
    currentTurnPlayerId := "p1"
    turnNumber := 5
    winner := some { mkHandPlayer "p1" [] with status := "winner", isCurrentTurn := true }
    metadata := { direction := some 1, pendingDraw := some 0 } }

def c2Catch : Action :=
  { atype := "catch_uno", playerId := "p1", targetPlayerId := some "p2" }

def c2Play : Action :=
  { atype := "play_card", playerId := "p1", cardId := some "h1" }

/-- A playing-phase room whose draw pile is empty and whose discard pile
holds a single card, so recycling is impossible — claim C3's input. -/
def c3State : GameState :=
  { rules := { winCondition := { wtype := "last_standing" } }
    phase := "playing"
    players := [
      { mkHandPlayer "p1" [mkCardSimple "h1" "number"] with isCurrentTurn := true },
      mkHandPlayer "p2" [mkCardSimple "h2" "number"] ]
    zones := [mkDrawZone [], mkDiscardZone [mkCardSimple "t1" "number"]]
    currentTurnPlayerId := "p1"
    turnNumber := 3
    metadata := { direction := some 1, pendingDraw := some 0 } }

def c3Draw : Action := { atype := "draw_card", playerId := "p1" }

/-- A playing-phase UNO-style room where `p1` owes a stacked pending
draw of 2 — claim C5's universal-engine counterexample input. -/
def c5uState : GameState :=
  { rules := { winCondition := { wtype := "empty_hand" } }
    phase := "playing"
    players := [
      { mkHandPlayer "p1" [mkCardSimple "h1" "number"] with isCurrentTurn := true },
      mkHandPlayer "p2" [mkCardSimple "h2" "number"] ]
    zones := [mkDrawZone [mkCardSimple "d1" "number", mkCardSimple "d2" "number",
                          mkCardSimple "d3" "number"],
              mkDiscardZone [mkCardSimple "t1" "number"]]
    currentTurnPlayerId := "p1"
    turnNumber := 4
    metadata := { direction := some 1, pendingDraw := some 2
                  gameConfig := { stackableDraw := true } } }

def c5uDraw : Action := { atype := "draw_card", playerId := "p1" }

/-! ### Exploding Kittens fixtures -/

def attackEffect : CardEffect := { etype := "attack" }

def attackCard : Card :=
  { id := "attack_0", definitionId := "attack", name := "Attack", ctype := "action",
    subtype := some "attack", effects := [attackEffect] }

def nopeCardOf (cid : String) : Card :=
  { id := cid, definitionId := "nope", name := "Nope", ctype := "reaction",
    subtype := some "nope", isReaction := true, effects := [anyEffect] }

def explodingCard : Card :=
  { id := "exploding_0", definitionId := "exploding", name := "Exploding Kitten",
    ctype := "special", subtype := some "exploding",
    effects := [{ etype := "eliminate", target := some "self" }] }

def ekRules : GameRules :=
  { winCondition := { wtype := "last_standing" }, handSize := 5 }

/-- The original action recorded when `p1` played the attack card. -/
def c4Orig : Action := { atype := "", playerId := "p1", cardId := some "attack_0" }

/-- A 3-player EK room whose pending nope window (over `p1`-s already
spent attack card) has accumulated `n` toggles — claim C4's input. -/
def c4State (n : Nat) : GameState :=
  { gameType := "exploding_kittens"
    rules := ekRules
    phase := "awaiting_response"
    players := [
      { mkHandPlayer "p1" [mkCardSimple "f1" "cat"] with isCurrentTurn := true },
      mkHandPlayer "p2" [nopeCardOf "nope_1", mkCardSimple "f2" "cat"],
      mkHandPlayer "p3" [mkCardSimple "f3" "cat"] ]
    zones := [mkDrawZone [mkCardSimple "d1" "cat", mkCardSimple "d2" "cat"],
              mkDiscardZone [attackCard]]
    currentTurnPlayerId := "p1"
    turnNumber := 2
    pendingAction := some (.nopeWindow "p1" "attack_0" attackCard "Attack"
      [attackEffect] c4Orig n none)
    metadata := { direction := some 1, pendingDraw := some 0, attacksPending := some 0 } }

def c4Resolve : Action := { atype := "resolve_nope_window", playerId := "p1" }

def c4Nope : Action := { atype := "nope", playerId := "p2", cardId := some "nope_1" }

/-- A 3-player EK room where `p1` is about to play an attack card —
claim C5's scenario-B start. -/
def c5State : GameState :=
  { gameType := "exploding_kittens"
    rules := ekRules
    phase := "playing"
    players := [
      { mkHandPlayer "p1" [attackCard, mkCardSimple "f1" "cat"] with isCurrentTurn := true },
      mkHandPlayer "p2" [mkCardSimple "f2" "cat"],
      mkHandPlayer "p3" [mkCardSimple "f3" "cat"] ]
    zones := [mkDrawZone [mkCardSimple "d1" "cat", mkCardSimple "d2" "cat",
                          mkCardSimple "d3" "cat", mkCardSimple "d4" "cat"],
              mkDiscardZone [mkCardSimple "t1" "cat"]]
    currentTurnPlayerId := "p1"
    turnNumber := 1
    metadata := { direction := some 1, pendingDraw := some 0, attacksPending := some 0 } }

def c5PlayAttack : Action := { atype := "play_card", playerId := "p1", cardId := some "attack_0" }

def c5AfterPlay : GameState :=
  outState (applyAction idRNG (some ekPlugin) c5State c5PlayAttack) c5State

def c5AfterResolve : GameState :=
  outState (applyAction idRNG (some ekPlugin) c5AfterPlay
    { atype := "resolve_nope_window", playerId := "p1" }) c5AfterPlay

def c5AfterDraw1 : GameState :=
  outState (applyAction idRNG (some ekPlugin) c5AfterResolve
    { atype := "draw_card", playerId := "p2" }) c5AfterResolve

def c5AfterDraw2 : GameState :=
  outState (applyAction idRNG (some ekPlugin) c5AfterDraw1
    { atype := "draw_card", playerId := "p2" }) c5AfterDraw1

/-- A 3-player EK room where `p2` is under a pending attack stack of 2,
holds no defuse, and the top deck card is a bomb — claim C9's input. -/
def c9State : GameState :=
  { gameType := "exploding_kittens"
    rules := ekRules
    phase := "playing"
    players := [
      mkHandPlayer "p1" [mkCardSimple "f1" "cat"],
      { mkHandPlayer "p2" [mkCardSimple "f2" "cat"] with isCurrentTurn := true },
      mkHandPlayer "p3" [mkCardSimple "f3" "cat"] ]
    zones := [mkDrawZone [explodingCard, mkCardSimple "d1" "cat"],
              mkDiscardZone [mkCardSimple "t1" "cat"]]
    currentTurnPlayerId := "p2"
    turnNumber := 6
    metadata := { direction := some 1, pendingDraw := some 0, attacksPending := some 2 } }

def c9Draw : Action := { atype := "draw_card", playerId := "p2" }

/-! ### Plugin-fault fixtures (claim C7) -/

/-- A plugin with no capabilities at all. -/
def quietPlugin : Plugin :=
  { customActions := [], customEffects := [], onCardPlayed := fun _ _ _ => .ok none }

/-- A plugin whose `on_card_played` lifecycle hook raises. -/
def hookRaisingPlugin (msg : String) : Plugin :=
  { customActions := [], customEffects := [], onCardPlayed := fun _ _ _ => .error msg }

/-- A plugin whose custom action handler raises. -/
def boomActionPlugin : Plugin :=
  { customActions := [("play_card", fun _ _ _ => .error "plugin handler crashed")]
    customEffects := [], onCardPlayed := fun _ _ _ => .ok none }

/-- A plugin whose custom effect handler raises. -/
def boomEffectPlugin : Plugin :=
  { customActions := []
    customEffects := [("custom_boom", fun _ _ _ _ _ _ _ => .error "plugin effect crashed")]
    onCardPlayed := fun _ _ _ => .ok none }

/-- A card carrying a plugin-custom effect followed by a builtin one. -/
def boomCard : Card :=
  { id := "x1", definitionId := "boom", name := "Boom", ctype := "action",
    subtype := some "boom", effects := [{ etype := "custom_boom" }, anyEffect] }

def c7State : GameState :=
  { rules := { winCondition := { wtype := "last_standing" } }
    phase := "playing"
    players := [
      { mkHandPlayer "p1" [boomCard, mkCardSimple "f1" "cat"] with isCurrentTurn := true },
      mkHandPlayer "p2" [mkCardSimple "f2" "cat"] ]
    zones := [mkDrawZone [mkCardSimple "d1" "cat"], mkDiscardZone [mkCardSimple "t1" "cat"]]
    currentTurnPlayerId := "p1"
    turnNumber := 1
    metadata := { direction := some 1, pendingDraw := some 0 } }

def c7Play : Action := { atype := "play_card", playerId := "p1", cardId := some "x1" }

/-! ### Validation-failure predicate (claim C6) -/

/-- The hand card a play action refers to. -/
def findHandCard (s : GameState) (a : Action) : Option Card :=
  match getPlayer s a.playerId with
  | some p => p.hand.cards.find? (fun c => some c.id == a.cardId)
  | none => none

/-- The action types of `apply_action`'s fall-back dispatch table. -/
def universalActionTypes : List String :=
  ["play_card", "draw_card", "choose_color", "insert_card", "give_card",
   "select_target", "call_uno", "catch_uno", "challenge"]

/-- The validation failures claim C6 names: acting player not found, not
the acting player's turn, wrong phase, card not in hand, card not
playable (for the card-play action), and unknown action types. -/
def validationFailure (s : GameState) (a : Action) : Prop :=
  (a.atype = "play_card" ∧
    (getPlayer s a.playerId = none ∨ s.currentTurnPlayerId ≠ a.playerId ∨
     s.phase ≠ "playing" ∨ findHandCard s a = none ∨
     (∃ c, findHandCard s a = some c ∧ canPlayCard c s = false)))
  ∨ (a.atype = "draw_card" ∧
      (getPlayer s a.playerId = none ∨ s.currentTurnPlayerId ≠ a.playerId ∨
       s.phase ≠ "playing"))
  ∨ a.atype ∉ universalActionTypes

/-- A play action by a player who is not in the room (C6's witness input). -/
def c6Bad : Action := { atype := "play_card", playerId := "ghost" }

/-- The resolution call on the toggled nope window (claim C4). -/
def c4Res (n : Nat) : Py ActionOut :=
  applyAction idRNG (some ekPlugin) (c4State n) c4Resolve

/-- The state the resolution leaves behind (claim C4). -/
def c4After (n : Nat) : GameState := outState (c4Res n) (c4State n)

/-- A room whose draw pile is one card short of a 5-card draw while three
cards sit on the discard pile (claim C8's witness input). -/
def c8State : GameState :=
  { rules := { winCondition := { wtype := "empty_hand" } }
    phase := "playing"
    players := [
      { mkHandPlayer "p1" [mkCardSimple "h1" "number"] with isCurrentTurn := true },
      mkHandPlayer "p2" [mkCardSimple "h2" "number"] ]
    zones := [mkDrawZone [mkCardSimple "d1" "number"],
              mkDiscardZone [mkCardSimple "t1" "number", mkCardSimple "t2" "number",
                             mkCardSimple "t3" "number"]]
    currentTurnPlayerId := "p1"
    turnNumber := 2
    metadata := { direction := some 1, pendingDraw := some 0 } }

/-! # Shared lemmas and claim theorems -/


theorem getPlayer_eq_id {s : GameState} {pid : String} {p : Player}
    (h : getPlayer s pid = some p) : p.id = pid := by
  unfold getPlayer at h
  simpa using List.find?_some h

theorem unknown_action_msg_ne (t : String) : ("Unknown action: " ++ t) ≠ "" := by
  intro h
  have h2 : ("Unknown action: " ++ t).length = 0 := by rw [h]; rfl
  rw [String.length_append] at h2
  have h3 : ("Unknown action: ").length = 16 := rfl
  omega

theorem actionPlayCard_validation (rng : RNG) (pl : Option Plugin) (s : GameState)
    (a : Action)
    (h : getPlayer s a.playerId = none ∨ s.currentTurnPlayerId ≠ a.playerId ∨
         s.phase ≠ "playing" ∨ findHandCard s a = none ∨
         (∃ c, findHandCard s a = some c ∧ canPlayCard c s = false)) :
    ∃ msg, actionPlayCard rng pl s a =
      .ok ({ success := false, errorMsg := msg, triggered := [] }, s) ∧ msg ≠ "" := by
  cases hp : getPlayer s a.playerId with
  | none =>
    exact ⟨"Player not found", by simp [actionPlayCard, failRes, hp], by decide⟩
  | some p =>
    have hpid : p.id = a.playerId := getPlayer_eq_id hp
    by_cases ht : s.currentTurnPlayerId = a.playerId
    case neg =>
      have hb : (s.currentTurnPlayerId != p.id) = true := by
        rw [hpid]; exact bne_iff_ne.mpr ht
      exact ⟨"Not your turn", by simp [actionPlayCard, failRes, hp, hb], by decide⟩
    case pos =>
      have hb : (s.currentTurnPlayerId != p.id) = false := by
        rw [hpid, ht]; simp
      by_cases hph : s.phase = "playing"
      case neg =>
        have hb2 : (s.phase != "playing") = true := bne_iff_ne.mpr hph
        exact ⟨"Cannot play a card right now", by simp [actionPlayCard, failRes, hp, hb, hb2], by decide⟩
      case pos =>
        have hb2 : (s.phase != "playing") = false := by rw [hph]; simp
        cases hf : p.hand.cards.find? (fun c => some c.id == a.cardId) with
        | none =>
          exact ⟨"Card not in hand", by simp [actionPlayCard, failRes, hp, hb, hb2, hf], by decide⟩
        | some c =>
          cases hcan : canPlayCard c s with
          | false =>
            exact ⟨"That card cannot be played right now",
              by simp [actionPlayCard, failRes, hp, hb, hb2, hf, hcan], by decide⟩
          | true =>
            exfalso
            have hfh : findHandCard s a = some c := by simp [findHandCard, hp, hf]
            rcases h with h | h | h | h | ⟨c', hc', hcan'⟩
            · rw [hp] at h; cases h
            · exact h ht
            · exact h hph
            · rw [hfh] at h; cases h
            · rw [hfh] at hc'
              cases hc'
              rw [hcan] at hcan'
              cases hcan'

theorem actionDrawCard_validation (rng : RNG) (s : GameState) (a : Action)
    (h : getPlayer s a.playerId = none ∨ s.currentTurnPlayerId ≠ a.playerId ∨
         s.phase ≠ "playing") :
    ∃ msg, actionDrawCard rng s a =
      .ok ({ success := false, errorMsg := msg, triggered := [] }, s) ∧ msg ≠ "" := by
  cases hp : getPlayer s a.playerId with
  | none =>
    exact ⟨"Player not found", by simp [actionDrawCard, failRes, hp], by decide⟩
  | some p =>
    have hpid : p.id = a.playerId := getPlayer_eq_id hp
    by_cases ht : s.currentTurnPlayerId = a.playerId
    case neg =>
      have hb : (s.currentTurnPlayerId != p.id) = true := by
        rw [hpid]; exact bne_iff_ne.mpr ht
      exact ⟨"Not your turn", by simp [actionDrawCard, failRes, hp, hb], by decide⟩
    case pos =>
      have hb : (s.currentTurnPlayerId != p.id) = false := by
        rw [hpid, ht]; simp
      by_cases hph : s.phase = "playing"
      case neg =>
        have hb2 : (s.phase != "playing") = true := bne_iff_ne.mpr hph
        exact ⟨"Cannot draw right now", by simp [actionDrawCard, failRes, hp, hb, hb2], by decide⟩
      case pos =>
        exfalso
        rcases h with h | h | h
        · rw [hp] at h; cases h
        · exact h ht
        · exact h hph


theorem applyAction_validation (rng : RNG) (s : GameState) (a : Action)
    (h : validationFailure s a) :
    ∃ msg, applyAction rng none s a =
      .ok ({ success := false, errorMsg := msg, triggered := [] }, s) ∧ msg ≠ "" := by
  rcases h with ⟨hty, h⟩ | ⟨hty, h⟩ | hty
  · obtain ⟨msg, hm, hne⟩ := actionPlayCard_validation rng none s a h
    exact ⟨msg, by simp [applyAction, universalDispatch, hty, hm], hne⟩
  · obtain ⟨msg, hm, hne⟩ := actionDrawCard_validation rng s a h
    exact ⟨msg, by simp [applyAction, universalDispatch, hty, hm], hne⟩
  · simp only [universalActionTypes, List.mem_cons, List.not_mem_nil, or_false] at hty
    push_neg at hty
    obtain ⟨n1, n2, n3, n4, n5, n6, n7, n8, n9⟩ := hty
    refine ⟨"Unknown action: " ++ a.atype, ?_, unknown_action_msg_ne a.atype⟩
    simp [applyAction, universalDispatch,
      beq_eq_false_iff_ne.mpr n1, beq_eq_false_iff_ne.mpr n2,
      beq_eq_false_iff_ne.mpr n3, beq_eq_false_iff_ne.mpr n4,
      beq_eq_false_iff_ne.mpr n5, beq_eq_false_iff_ne.mpr n6,
      beq_eq_false_iff_ne.mpr n7, beq_eq_false_iff_ne.mpr n8,
      beq_eq_false_iff_ne.mpr n9]


theorem actionChooseColor_no_pending (rng : RNG) (s : GameState) (a : Action)
    (h : s.pendingAction = none) :
    actionChooseColor rng s a = failRes s "No color choice pending" := by
  simp [actionChooseColor, h]

theorem actionInsertCard_no_pending (rng : RNG) (s : GameState) (a : Action)
    (h : s.pendingAction = none) :
    actionInsertCard rng s a = failRes s "No insert pending" := by
  simp [actionInsertCard, h]

theorem actionGiveCard_no_pending (rng : RNG) (s : GameState) (a : Action)
    (h : s.pendingAction = none) :
    actionGiveCard rng s a = failRes s "No give_card pending" := by
  simp [actionGiveCard, h]

theorem actionSelectTarget_no_pending (rng : RNG) (s : GameState) (a : Action)
    (h : s.pendingAction = none) :
    actionSelectTarget rng s a = failRes s "No pending action" := by
  simp [actionSelectTarget, h]

theorem actionChallenge_no_pending (rng : RNG) (s : GameState) (a : Action)
    (h : s.pendingAction = none) :
    actionChallenge rng s a = failRes s "No challenge pending" := by
  simp [actionChallenge, h]

theorem actionCallUno_preserves (rng : RNG) (s : GameState) (a : Action) :
    ∃ res s', actionCallUno rng s a = .ok (res, s') ∧
      s'.players = s.players ∧ s'.zones = s.zones ∧ s'.winner = s.winner := by
  cases hp : getPlayer s a.playerId with
  | none =>
    refine ⟨{ success := false, errorMsg := "Can only call UNO with exactly 1 card",
              triggered := [] }, s, ?_, rfl, rfl, rfl⟩
    simp only [actionCallUno, hp]
    rfl
  | some p =>
    cases hb : (p.hand.cards.length != 1) with
    | true =>
      refine ⟨{ success := false, errorMsg := "Can only call UNO with exactly 1 card",
                triggered := [] }, s, ?_, rfl, rfl, rfl⟩
      simp only [actionCallUno, hp, hb, if_true]
      rfl
    | false =>
      have key : actionCallUno rng s a = .ok
          ({ success := true, errorMsg := "", triggered := ["uno_called"] },
           pushLog { s with metadata := { s.metadata with unoCalledBy := some (
               if (s.metadata.unoCalledBy.getD []).contains p.id then
                 s.metadata.unoCalledBy.getD []
               else s.metadata.unoCalledBy.getD [] ++ [p.id]) } }
             "calls UNO" "effect" (some p.id)) := by
        simp only [actionCallUno, hp, hb, Bool.false_eq_true, if_false]
      exact ⟨_, _, key, rfl, rfl, rfl⟩


/-- C2 (amended): once the phase is `ended` and no pending action
remains, `apply_action` with any action type other than `catch_uno`
leaves the players, the zones and the winner unchanged. -/
theorem terminal_stability_except_catch_uno (rng : RNG) (s : GameState) (a : Action)
    (hphase : s.phase = "ended") (hpend : s.pendingAction = none)
    (hcatch : a.atype ≠ "catch_uno") :
    ∃ res s', applyAction rng none s a = .ok (res, s') ∧
      s'.players = s.players ∧ s'.zones = s.zones ∧ s'.winner = s.winner := by
  have hne : s.phase ≠ "playing" := by rw [hphase]; decide
  by_cases h1 : a.atype = "play_card"
  · obtain ⟨msg, hm, _⟩ := actionPlayCard_validation rng none s a (Or.inr (Or.inr (Or.inl hne)))
    exact ⟨{ success := false, errorMsg := msg, triggered := [] }, s,
      by simp [applyAction, universalDispatch, h1, hm], rfl, rfl, rfl⟩
  by_cases h2 : a.atype = "draw_card"
  · obtain ⟨msg, hm, _⟩ := actionDrawCard_validation rng s a (Or.inr (Or.inr hne))
    exact ⟨{ success := false, errorMsg := msg, triggered := [] }, s,
      by simp [applyAction, universalDispatch, beq_eq_false_iff_ne.mpr h1, h2, hm], rfl, rfl, rfl⟩
  by_cases h3 : a.atype = "choose_color"
  · exact ⟨{ success := false, errorMsg := "No color choice pending", triggered := [] }, s,
      by simp [applyAction, universalDispatch, beq_eq_false_iff_ne.mpr h1,
        beq_eq_false_iff_ne.mpr h2, h3, actionChooseColor_no_pending rng s a hpend, failRes],
      rfl, rfl, rfl⟩
  by_cases h4 : a.atype = "insert_card"
  · exact ⟨{ success := false, errorMsg := "No insert pending", triggered := [] }, s,
      by simp [applyAction, universalDispatch, beq_eq_false_iff_ne.mpr h1,
        beq_eq_false_iff_ne.mpr h2, beq_eq_false_iff_ne.mpr h3, h4,
        actionInsertCard_no_pending rng s a hpend, failRes],
      rfl, rfl, rfl⟩
  by_cases h5 : a.atype = "give_card"
  · exact ⟨{ success := false, errorMsg := "No give_card pending", triggered := [] }, s,
      by simp [applyAction, universalDispatch, beq_eq_false_iff_ne.mpr h1,
        beq_eq_false_iff_ne.mpr h2, beq_eq_false_iff_ne.mpr h3, beq_eq_false_iff_ne.mpr h4,
        h5, actionGiveCard_no_pending rng s a hpend, failRes],
      rfl, rfl, rfl⟩
  by_cases h6 : a.atype = "select_target"
  · exact ⟨{ success := false, errorMsg := "No pending action", triggered := [] }, s,
      by simp [applyAction, universalDispatch, beq_eq_false_iff_ne.mpr h1,
        beq_eq_false_iff_ne.mpr h2, beq_eq_false_iff_ne.mpr h3, beq_eq_false_iff_ne.mpr h4,
        beq_eq_false_iff_ne.mpr h5, h6, actionSelectTarget_no_pending rng s a hpend, failRes],
      rfl, rfl, rfl⟩
  by_cases h7 : a.atype = "call_uno"
  · obtain ⟨res, s', hm, hpl, hz, hw⟩ := actionCallUno_preserves rng s a
    refine ⟨res, s', ?_, hpl, hz, hw⟩
    simpa [applyAction, universalDispatch, beq_eq_false_iff_ne.mpr h1,
      beq_eq_false_iff_ne.mpr h2, beq_eq_false_iff_ne.mpr h3, beq_eq_false_iff_ne.mpr h4,
      beq_eq_false_iff_ne.mpr h5, beq_eq_false_iff_ne.mpr h6, h7] using hm
  by_cases h9 : a.atype = "challenge"
  · exact ⟨{ success := false, errorMsg := "No challenge pending", triggered := [] }, s,
      by simp [applyAction, universalDispatch, beq_eq_false_iff_ne.mpr h1,
        beq_eq_false_iff_ne.mpr h2, beq_eq_false_iff_ne.mpr h3, beq_eq_false_iff_ne.mpr h4,
        beq_eq_false_iff_ne.mpr h5, beq_eq_false_iff_ne.mpr h6, beq_eq_false_iff_ne.mpr h7,
        beq_eq_false_iff_ne.mpr hcatch, h9, actionChallenge_no_pending rng s a hpend, failRes],
      rfl, rfl, rfl⟩
  · exact ⟨{ success := false, errorMsg := "Unknown action: " ++ a.atype, triggered := [] }, s,
      by simp [applyAction, universalDispatch, beq_eq_false_iff_ne.mpr h1,
        beq_eq_false_iff_ne.mpr h2, beq_eq_false_iff_ne.mpr h3, beq_eq_false_iff_ne.mpr h4,
        beq_eq_false_iff_ne.mpr h5, beq_eq_false_iff_ne.mpr h6, beq_eq_false_iff_ne.mpr h7,
        beq_eq_false_iff_ne.mpr hcatch, beq_eq_false_iff_ne.mpr h9],
      rfl, rfl, rfl⟩


/-- C3 (amended): the Exploding Kittens plugin's draw action yields the
explicit "Draw pile is empty" failure, leaving the state untouched,
whenever the draw pile is absent or empty. -/
theorem ek_draw_from_empty_pile_fails (rng : RNG) (s : GameState) (a : Action)
    (htype : a.atype = "draw_card") (p : Player)
    (hp : getPlayer s a.playerId = some p)
    (hturn : s.currentTurnPlayerId = a.playerId)
    (hdraw : ∀ z, drawZone s = some z → z.cards = []) :
    applyAction rng (some ekPlugin) s a =
      .ok ({ success := false, errorMsg := "Draw pile is empty", triggered := [] }, s) := by
  have hlookup : lookupHandler ekPlugin.customActions a.atype = some ekHandleDrawCard := by
    rw [htype]; rfl
  have hb : (s.currentTurnPlayerId != p.id) = false := by
    rw [getPlayer_eq_id hp, hturn]; simp
  simp only [applyAction, hlookup]
  cases hz : drawZone s with
  | none => simp [ekHandleDrawCard, hp, hb, hz, failRes]
  | some z =>
    have hzc : z.cards = [] := hdraw z hz
    simp [ekHandleDrawCard, hp, hb, hz, hzc, failRes]

theorem find?_updateFirst_self {α : Type} (p : α → Bool) (f : α → α) (l : List α) (x : α)
    (hx : l.find? p = some x) (hf : ∀ y, p y = true → p (f y) = true) :
    (updateFirst p f l).find? p = some (f x) := by
  induction l with
  | nil => simp at hx
  | cons y ys ih =>
    by_cases hy : p y = true
    · rw [List.find?_cons_of_pos _ hy] at hx
      injection hx with hx
      subst hx
      simp only [updateFirst, hy, if_true]
      rw [List.find?_cons_of_pos _ (hf y hy)]
    · have hy' : p y = false := by revert hy; cases p y <;> simp
      rw [List.find?_cons_of_neg _ (by simp [hy'])] at hx
      simp only [updateFirst, hy', Bool.false_eq_true, if_false]
      rw [List.find?_cons_of_neg _ (by simp [hy'])]
      exact ih hx

theorem find?_updateFirst_other {α : Type} (p q : α → Bool) (f : α → α) (l : List α)
    (hq : ∀ y, q y = true → p y = false ∧ p (f y) = false) :
    (updateFirst q f l).find? p = l.find? p := by
  induction l with
  | nil => rfl
  | cons y ys ih =>
    by_cases hy : q y = true
    · obtain ⟨h1, h2⟩ := hq y hy
      simp only [updateFirst, hy, if_true]
      rw [List.find?_cons_of_neg _ (by simp [h2]), List.find?_cons_of_neg _ (by simp [h1])]
    · have hy' : q y = false := by revert hy; cases q y <;> simp
      simp only [updateFirst, hy', Bool.false_eq_true, if_false]
      cases hp : p y with
      | true =>
        rw [List.find?_cons_of_pos _ hp, List.find?_cons_of_pos _ hp]
      | false =>
        rw [List.find?_cons_of_neg _ (by simp [hp]), List.find?_cons_of_neg _ (by simp [hp])]
        exact ih


theorem drawZone_update_draw (s : GameState) (f : Zone → Zone)
    (hf : ∀ z, (f z).id = z.id) (z : Zone) (h : drawZone s = some z) :
    drawZone (updateZone s "draw_pile" f) = some (f z) := by
  unfold drawZone at h ⊢
  unfold updateZone
  exact find?_updateFirst_self _ f s.zones z h
    (fun y hy => by simp_all [hf y])

theorem discardZone_update_discard (s : GameState) (f : Zone → Zone)
    (hf : ∀ z, (f z).id = z.id) (z : Zone) (h : discardZone s = some z) :
    discardZone (updateZone s "discard_pile" f) = some (f z) := by
  unfold discardZone at h ⊢
  unfold updateZone
  exact find?_updateFirst_self _ f s.zones z h
    (fun y hy => by simp_all [hf y])

theorem discardZone_update_draw (s : GameState) (f : Zone → Zone)
    (hf : ∀ z, (f z).id = z.id) :
    discardZone (updateZone s "draw_pile" f) = discardZone s := by
  unfold discardZone updateZone
  refine find?_updateFirst_other _ _ f s.zones (fun y hy => ?_)
  have : y.id = "draw_pile" := by simpa using hy
  constructor <;> simp [this, hf y]

theorem drawZone_update_discard (s : GameState) (f : Zone → Zone)
    (hf : ∀ z, (f z).id = z.id) :
    drawZone (updateZone s "discard_pile" f) = drawZone s := by
  unfold drawZone updateZone
  refine find?_updateFirst_other _ _ f s.zones (fun y hy => ?_)
  have : y.id = "discard_pile" := by simpa using hy
  constructor <;> simp [this, hf y]

theorem recycleFix_id (c : Card) :
    (if c.metadata.color == some "wild" then
      { c with metadata := { c.metadata with color := some "wild" } } else c) = c := by
  by_cases h : c.metadata.color = some "wild"
  · simp only [h, beq_self_eq_true, if_true]
    cases c with
    | mk cid cdef cname cty csub cdesc ceffs cplay creact cmeta =>
      cases cmeta with
      | mk mcolor mnumber => simp_all
  · simp [beq_eq_false_iff_ne.mpr h]


theorem drawZone_pushLog (s : GameState) (m t : String) (pid cid : Option String) :
    drawZone (pushLog s m t pid cid) = drawZone s := rfl

theorem discardZone_pushLog (s : GameState) (m t : String) (pid cid : Option String) :
    discardZone (pushLog s m t pid cid) = discardZone s := rfl

/-- C8: when a draw needs more cards than the draw pile holds and the
discard pile has at least two cards, recycling moves every discard card
except the top into the draw pile (a permutation, i.e. the same
multiset), and the discard pile afterwards is exactly the old top. -/
theorem deck_recycling_moves_all_but_top (rng : RNG) (s : GameState) (n : Int)
    (hperm : ∀ l, List.Perm (rng.shuffle l) l)
    (draw discard : Zone)
    (hd : drawZone s = some draw) (hdisc : discardZone s = some discard)
    (hneed : (draw.cards.length : Int) < n) (h2 : 2 ≤ discard.cards.length) :
    ∃ top rest, discard.cards = top :: rest ∧
      discardPileCards (ensureDrawCards rng s n) = [top] ∧
      List.Perm (drawPileCards (ensureDrawCards rng s n)) (draw.cards ++ rest) := by
  obtain ⟨top, rest, hcons⟩ : ∃ t r, discard.cards = t :: r := by
    cases hc : discard.cards with
    | nil => rw [hc] at h2; simp at h2
    | cons t r => exact ⟨t, r, rfl⟩
  have hfix : rest.map (fun c =>
      if c.metadata.color == some "wild" then
        { c with metadata := { c.metadata with color := some "wild" } }
      else c) = rest := by
    rw [List.map_congr_left (fun c _ => recycleFix_id c)]
    simp
  have hres : ensureDrawCards rng s n =
      pushLog (updateZone (updateZone s "draw_pile"
          (fun z => { z with cards := z.cards ++ rng.shuffle rest }))
        "discard_pile" (fun z => { z with cards := [top] })) "reshuffled" "system" := by
    simp only [ensureDrawCards, hd, hdisc, hcons]
    rw [if_pos]
    · rw [hfix]
    · simp only [Bool.and_eq_true, decide_eq_true_eq]
      refine ⟨hneed, ?_⟩
      have h3 := h2
      rw [hcons] at h3
      simpa using h3
  have e1 : discardZone (updateZone s "draw_pile"
      (fun z => { z with cards := z.cards ++ rng.shuffle rest })) = some discard := by
    rw [discardZone_update_draw s
      (fun z => { z with cards := z.cards ++ rng.shuffle rest }) (fun z => rfl)]
    exact hdisc
  have e2 : discardZone (updateZone (updateZone s "draw_pile"
      (fun z => { z with cards := z.cards ++ rng.shuffle rest }))
      "discard_pile" (fun z => { z with cards := [top] })) =
      some { discard with cards := [top] } :=
    discardZone_update_discard _ (fun z => { z with cards := [top] }) (fun z => rfl)
      discard e1
  have e3 : drawZone (updateZone s "draw_pile"
      (fun z => { z with cards := z.cards ++ rng.shuffle rest })) =
      some { draw with cards := draw.cards ++ rng.shuffle rest } :=
    drawZone_update_draw s (fun z => { z with cards := z.cards ++ rng.shuffle rest })
      (fun z => rfl) draw hd
  have e4 : drawZone (updateZone (updateZone s "draw_pile"
      (fun z => { z with cards := z.cards ++ rng.shuffle rest }))
      "discard_pile" (fun z => { z with cards := [top] })) =
      some { draw with cards := draw.cards ++ rng.shuffle rest } := by
    rw [drawZone_update_discard _ (fun z => { z with cards := [top] }) (fun z => rfl)]
    exact e3
  refine ⟨top, rest, hcons, ?_, ?_⟩
  · unfold discardPileCards
    rw [hres, discardZone_pushLog, e2]
    rfl
  · unfold drawPileCards
    rw [hres, drawZone_pushLog, e4]
    exact List.Perm.append_left draw.cards (hperm rest)


/-- C10: with none of `matchColor`/`matchNumber`/`matchType` enabled and
a zero pending-draw total, `_can_play_card` accepts every card. -/
theorem no_match_rules_all_cards_playable (card : Card) (s : GameState)
    (h1 : (cfgOf s).matchColor = false) (h2 : (cfgOf s).matchNumber = false)
    (h3 : (cfgOf s).matchType = false) (h4 : s.metadata.pendingDraw.getD 0 = 0) :
    canPlayCard card s = true := by
  simp only [canPlayCard, h1, h2, h3, h4]
  simp


theorem resolveNope_odd (rng : RNG) (s : GameState) (a : Action)
    (pid cid nm : String) (card : Card) (effs : List CardEffect) (orig : Action)
    (n : Nat) (ln : Option String)
    (hw : s.pendingAction = some (.nopeWindow pid cid card nm effs orig n ln))
    (hodd : n % 2 = 1) :
    ekResolveNopeWindow rng s a = .ok
      ({ success := true, errorMsg := "", triggered := ["noped", "nope_resolved"] },
       pushLog { s with pendingAction := none, phase := "playing" }
         "cancelled by nope" "system") := by
  simp only [ekResolveNopeWindow, hw, hodd]
  simp

theorem resolveNope_even (rng : RNG) (s : GameState) (a : Action)
    (pid cid nm : String) (card : Card) (effs : List CardEffect) (orig : Action)
    (n : Nat) (ln : Option String)
    (hw : s.pendingAction = some (.nopeWindow pid cid card nm effs orig n ln))
    (heven : n % 2 = 0) :
    ekResolveNopeWindow rng s a =
      (match getPlayer { s with pendingAction := none, phase := "playing" } pid with
       | none => failRes { s with pendingAction := none, phase := "playing" }
           "Player not found"
       | some player =>
         let s2 := pushLog { s with pendingAction := none, phase := "playing" }
           "takes effect" "system"
         let trig := ["played:" ++ card.subtype.getD "None"]
         let out := ekResolveEffectsLoop rng player.id orig effs s2 card trig
         .ok ({ success := true, errorMsg := "", triggered := out.2 }, out.1)) := by
  simp only [ekResolveNopeWindow, hw, heven]
  simp


theorem applyAction_ek_resolve (rng : RNG) (s : GameState) (a : Action)
    (h : a.atype = "resolve_nope_window") :
    applyAction rng (some ekPlugin) s a = ekResolveNopeWindow rng s a := by
  simp only [applyAction]
  rw [show lookupHandler ekPlugin.customActions a.atype = some ekResolveNopeWindow by
    rw [h]; rfl]

theorem applyAction_ek_nope (rng : RNG) (s : GameState) (a : Action)
    (h : a.atype = "nope") :
    applyAction rng (some ekPlugin) s a = ekHandleNope rng s a := by
  simp only [applyAction]
  rw [show lookupHandler ekPlugin.customActions a.atype = some ekHandleNope by
    rw [h]; rfl]

theorem applyAction_ek_draw (rng : RNG) (s : GameState) (a : Action)
    (h : a.atype = "draw_card") :
    applyAction rng (some ekPlugin) s a = ekHandleDrawCard rng s a := by
  simp only [applyAction]
  rw [show lookupHandler ekPlugin.customActions a.atype = some ekHandleDrawCard by
    rw [h]; rfl]

theorem ekHandleNope_on_window (rng : RNG) (s : GameState) (a : Action)
    (p : Player) (hp : getPlayer s a.playerId = some p)
    (cid2 : String) (hcid : a.cardId = some cid2) (nc : Card)
    (hnc : p.hand.cards.find? (fun c => c.id == cid2 && c.subtype == some "nope") = some nc)
    (pid pcid nm : String) (card : Card) (effs : List CardEffect) (orig : Action)
    (cnt : Nat) (ln : Option String)
    (hw : s.pendingAction = some (.nopeWindow pid pcid card nm effs orig cnt ln)) :
    ekHandleNope rng s a =
      (let s1 := updatePlayer s p.id (fun q =>
         { q with hand := { q.hand with cards := removeCardById q.hand.cards nc.id } })
       let s2 := match discardZone s1 with
         | some _ => updateZone s1 "discard_pile" (fun z => { z with cards := nc :: z.cards })
         | none => s1
       let s3 := { s2 with pendingAction := some (.nopeWindow pid pcid card nm effs orig
           (cnt + 1) (some p.id)) }
       let s4 := pushLog s3 "played nope" "action" (some p.id) (some nc.id)
       if (cnt + 1) % 2 == 1 then
         .ok ({ success := true, errorMsg := "", triggered := ["noped"] },
              pushLog s4 "noped" "system")
       else
         .ok ({ success := true, errorMsg := "", triggered := ["nope_noped"] },
              pushLog s4 "nope was noped" "system")) := by
  simp only [ekHandleNope, hp, hcid, hnc, hw, pendingTypeName]
  simp


/-- C4: resolving a nope window with toggle count `n` keeps the played
card spent (out of every hand, on the discard pile) and applies the
card's effects exactly when `n` is even (here: the attack effect moves
the turn to `p2` with 2 owed draws); when `n` is odd nothing but the
pending action, phase and log change.  A further nope toggle increments
the count by exactly one and keeps the window open. -/
theorem nope_window_parity (n : Nat) :
    (raised (c4Res n) = false ∧
     (outRes (c4Res n)).map (fun res => res.success) = some true ∧
     countCardInHands (c4After n) "attack_0" = 0 ∧
     countCardInZones (c4After n) "attack_0" = 1 ∧
     (if n % 2 = 1 then
        (c4After n).players = (c4State n).players ∧
        (c4After n).zones = (c4State n).zones ∧
        attacksPendingOf (c4After n) = 0 ∧
        (c4After n).currentTurnPlayerId = "p1" ∧
        (c4After n).turnNumber = (c4State n).turnNumber
      else
        attacksPendingOf (c4After n) = 2 ∧
        (c4After n).currentTurnPlayerId = "p2" ∧
        (c4After n).turnNumber = (c4State n).turnNumber + 1)) ∧
    (∃ res s', applyAction idRNG (some ekPlugin) (c4State n) c4Nope = .ok (res, s') ∧
       s'.pendingAction = some (.nopeWindow "p1" "attack_0" attackCard "Attack"
         [attackEffect] c4Orig (n + 1) (some "p2")) ∧
       s'.phase = "awaiting_response" ∧
       handSizeOf s' "p2" + 1 = handSizeOf (c4State n) "p2" ∧
       countCardInZones s' "nope_1" = 1) := by
  constructor
  · have hbridge : c4Res n = ekResolveNopeWindow idRNG (c4State n) c4Resolve :=
      applyAction_ek_resolve idRNG (c4State n) c4Resolve rfl
    rcases Nat.mod_two_eq_zero_or_one n with he | ho
    · have key := resolveNope_even idRNG (c4State n) c4Resolve "p1" "attack_0" "Attack"
        attackCard [attackEffect] c4Orig n none rfl he
      have hr : c4Res n = _ := hbridge.trans key
      have hne : ¬ (n % 2 = 1) := by omega
      rw [if_neg hne]
      unfold c4After
      rw [hr]
      exact ⟨rfl, rfl, rfl, rfl, rfl, rfl, rfl⟩
    · have key := resolveNope_odd idRNG (c4State n) c4Resolve "p1" "attack_0" "Attack"
        attackCard [attackEffect] c4Orig n none rfl ho
      have hr : c4Res n = _ := hbridge.trans key
      rw [if_pos ho]
      unfold c4After
      rw [hr]
      exact ⟨rfl, rfl, rfl, rfl, rfl, rfl, rfl, rfl, rfl⟩
  · have key := ekHandleNope_on_window idRNG (c4State n) c4Nope
      (mkHandPlayer "p2" [nopeCardOf "nope_1", mkCardSimple "f2" "cat"]) rfl
      "nope_1" rfl (nopeCardOf "nope_1") rfl
      "p1" "attack_0" "Attack" attackCard [attackEffect] c4Orig n none rfl
    have hbridge := applyAction_ek_nope idRNG (c4State n) c4Nope rfl
    rw [hbridge, key]
    cases hpar : ((n + 1) % 2 == 1) with
    | true => exact ⟨_, _, rfl, rfl, rfl, rfl, rfl⟩
    | false => exact ⟨_, _, rfl, rfl, rfl, rfl, rfl⟩



/-! ## Remaining shared lemmas -/

theorem advanceTurnWithAttacks_decrements (s : GameState) (k : Int)
    (hk : attacksPendingOf s = k) (h2 : 2 ≤ k) :
    advanceTurnWithAttacks s =
      { s with metadata := { s.metadata with attacksPending := some (k - 1) } } := by
  unfold attacksPendingOf at hk
  unfold advanceTurnWithAttacks
  rw [hk]
  rw [if_pos (by omega : (0:Int) < k)]
  rw [if_pos (by omega : (0:Int) < k - 1)]

theorem playEffectsLoop_plugin_congr (rng : RNG) (pl1 pl2 : Plugin)
    (heff : pl1.customEffects = pl2.customEffects) (a : Action) (pid : String)
    (effs : List CardEffect) :
    ∀ (s : GameState) (card : Card) (trig : List String) (flags : PlayFlags),
      playEffectsLoop rng (some pl1) a pid effs s card trig flags =
        playEffectsLoop rng (some pl2) a pid effs s card trig flags := by
  induction effs with
  | nil => intro s card trig flags; rfl
  | cons e rest ih =>
    intro s card trig flags
    simp only [playEffectsLoop, heff, ih]

theorem actionPlayCard_hook_raise_caught (rng : RNG) (msg : String) (s : GameState)
    (a : Action) :
    actionPlayCard rng (some (hookRaisingPlugin msg)) s a =
      actionPlayCard rng (some quietPlugin) s a := by
  unfold actionPlayCard
  cases hp : getPlayer s a.playerId with
  | none => rfl
  | some p =>
    simp only [playEffectsLoop_plugin_congr rng (hookRaisingPlugin msg) quietPlugin rfl a p.id]
    rfl

theorem applyAction_hook_raise_caught (rng : RNG) (msg : String) (s : GameState)
    (a : Action) :
    applyAction rng (some (hookRaisingPlugin msg)) s a =
      applyAction rng (some quietPlugin) s a := by
  simp only [applyAction]
  rw [show lookupHandler (hookRaisingPlugin msg).customActions a.atype = none from rfl,
      show lookupHandler quietPlugin.customActions a.atype = none from rfl]
  by_cases h : a.atype = "play_card"
  · simp only [universalDispatch, h]
    simp only [show (("play_card" : String) == "play_card") = true from rfl, if_true]
    exact actionPlayCard_hook_raise_caught rng msg s a
  · simp only [universalDispatch, beq_eq_false_iff_ne.mpr h, Bool.false_eq_true, if_false]

/-! ## Claim theorems (continued) -/

/-- C1: playing a card whose effect list contains `eliminate` inserts the
played card into the discard pile a second time (`_action_play_card`
already put it there), so the card is counted twice across the room -
zone exclusivity and card conservation are broken one action after
`setup_game`. -/
theorem eliminate_effect_duplicates_played_card :
    totalCardCount c1Start "bomb_0" = 1 ∧
    c1Start.phase = "playing" ∧
    (outRes (applyAction idRNG none c1Start c1Play)).map (fun r => r.success) = some true ∧
    (outState (applyAction idRNG none c1Start c1Play) c1Start).phase = "playing" ∧
    totalCardCount (outState (applyAction idRNG none c1Start c1Play) c1Start) "bomb_0" = 2 ∧
    (discardPileCards (outState (applyAction idRNG none c1Start c1Play) c1Start)).map
      (fun c => c.id) = ["bomb_0", "bomb_0"] := by decide

/-- C2 (counterexample): on an ended game, `catch_uno` still succeeds and
moves two draw-pile cards into the caught player's hand, mutating both
the players list and the zones. -/
theorem catch_uno_mutates_ended_game :
    c2Ended.phase = "ended" ∧
    raised (applyAction idRNG none c2Ended c2Catch) = false ∧
    (outRes (applyAction idRNG none c2Ended c2Catch)).map (fun r => r.success) = some true ∧
    handSizeOf c2Ended "p2" = 1 ∧
    handSizeOf (outState (applyAction idRNG none c2Ended c2Catch) c2Ended) "p2" = 3 ∧
    ¬ ((outState (applyAction idRNG none c2Ended c2Catch) c2Ended).players
        = c2Ended.players) ∧
    ¬ ((outState (applyAction idRNG none c2Ended c2Catch) c2Ended).zones
        = c2Ended.zones) := by decide

/-- Witness for C2 (amended) at a concrete ended room and play action. -/
theorem terminal_stability_except_catch_uno_witness :
    ∃ res s', applyAction idRNG none c2Ended c2Play = .ok (res, s') ∧
      s'.players = c2Ended.players ∧ s'.zones = c2Ended.zones ∧
      s'.winner = c2Ended.winner :=
  terminal_stability_except_catch_uno idRNG c2Ended c2Play rfl rfl (by decide)

/-- C3 (counterexample): the universal engine's draw action on an
exhausted, non-recyclable pile succeeds with `drew:1` while delivering
nothing - no "pile empty" failure is reported. -/
theorem universal_draw_silently_returns_empty :
    drawPileCards c3State = [] ∧ (discardPileCards c3State).length = 1 ∧
    outRes (applyAction idRNG none c3State c3Draw) =
      some { success := true, errorMsg := "", triggered := ["drew:1"] } ∧
    handSizeOf (outState (applyAction idRNG none c3State c3Draw) c3State) "p1" =
      handSizeOf c3State "p1" := by decide

/-- Witness for C3 (amended) at a concrete empty-pile room. -/
theorem ek_draw_from_empty_pile_fails_witness :
    applyAction idRNG (some ekPlugin) c3State c3Draw =
      .ok ({ success := false, errorMsg := "Draw pile is empty", triggered := [] },
           c3State) :=
  ek_draw_from_empty_pile_fails idRNG c3State c3Draw rfl
    { mkHandPlayer "p1" [mkCardSimple "h1" "number"] with isCurrentTurn := true }
    rfl rfl
    (fun z hz => by
      rw [show drawZone c3State = some (mkDrawZone []) from rfl] at hz
      injection hz with h
      rw [← h]
      rfl)

/-- C5 (amended): the Exploding Kittens attack accumulator decrements by
exactly one per draw-driven turn advance and keeps the turn with the
owing player while it stays positive; concretely, an attack on `p2` sets
a pending total of 2 and `p2` must draw twice, one card per action,
before the turn passes to `p3`. -/
theorem attack_stack_decrements_once_per_draw (s : GameState) (k : Int)
    (hk : attacksPendingOf s = k) (h2 : 2 ≤ k) :
    (advanceTurnWithAttacks s =
       { s with metadata := { s.metadata with attacksPending := some (k - 1) } } ∧
     (advanceTurnWithAttacks s).currentTurnPlayerId = s.currentTurnPlayerId ∧
     (advanceTurnWithAttacks s).players = s.players ∧
     (advanceTurnWithAttacks s).turnNumber = s.turnNumber) ∧
    (attacksPendingOf c5AfterResolve = 2 ∧ c5AfterResolve.currentTurnPlayerId = "p2" ∧
     attacksPendingOf c5AfterDraw1 = 1 ∧ c5AfterDraw1.currentTurnPlayerId = "p2" ∧
     c5AfterDraw1.turnNumber = c5AfterResolve.turnNumber ∧
     attacksPendingOf c5AfterDraw2 = 0 ∧ c5AfterDraw2.currentTurnPlayerId = "p3" ∧
     handSizeOf c5AfterDraw1 "p2" = handSizeOf c5AfterResolve "p2" + 1 ∧
     handSizeOf c5AfterDraw2 "p2" = handSizeOf c5AfterDraw1 "p2" + 1) := by
  have key := advanceTurnWithAttacks_decrements s k hk h2
  refine ⟨⟨key, by rw [key], by rw [key], by rw [key]⟩, ?_⟩
  decide

/-- Witness for C5 (amended) on the room where `p2` owes two draws. -/
theorem attack_stack_decrements_once_per_draw_witness :
    attacksPendingOf c9State = 2 ∧
    (advanceTurnWithAttacks c9State).currentTurnPlayerId = c9State.currentTurnPlayerId ∧
    (advanceTurnWithAttacks c9State).players = c9State.players ∧
    attacksPendingOf (advanceTurnWithAttacks c9State) = 1 :=
  ⟨rfl, (attack_stack_decrements_once_per_draw c9State 2 rfl (by decide)).1.2.1,
    (attack_stack_decrements_once_per_draw c9State 2 rfl (by decide)).1.2.2.1,
    by rw [(attack_stack_decrements_once_per_draw c9State 2 rfl (by decide)).1.1]; rfl⟩

/-- C5 (counterexample): the universal engine's `pendingDraw` accumulator
of 2 is absorbed by a single draw action - it drops straight to 0, two
cards are drawn at once, and the turn passes immediately, so it does not
decrement once per draw action. -/
theorem pending_draw_cleared_in_single_draw :
    c5uState.metadata.pendingDraw = some 2 ∧
    (outRes (applyAction idRNG none c5uState c5uDraw)).map (fun r => r.success) = some true ∧
    (outState (applyAction idRNG none c5uState c5uDraw) c5uState).metadata.pendingDraw
      = some 0 ∧
    (outState (applyAction idRNG none c5uState c5uDraw) c5uState).currentTurnPlayerId
      = "p2" ∧
    handSizeOf (outState (applyAction idRNG none c5uState c5uDraw) c5uState) "p1" =
      handSizeOf c5uState "p1" + 2 := by decide

/-- C6: every validation failure named by the claim makes `apply_action`
return a failed result with a non-empty reason and the input state
returned unchanged. -/
theorem validation_failures_are_atomic (rng : RNG) (s : GameState) (a : Action)
    (h : validationFailure s a) :
    ∃ msg, applyAction rng none s a =
      .ok ({ success := false, errorMsg := msg, triggered := [] }, s) ∧ msg ≠ "" :=
  applyAction_validation rng s a h

/-- Witness for C6: a play action by an unknown player. -/
theorem validation_failures_are_atomic_witness :
    validationFailure c3State c6Bad ∧
    ∃ msg, applyAction idRNG none c3State c6Bad =
      .ok ({ success := false, errorMsg := msg, triggered := [] }, c3State) ∧ msg ≠ "" :=
  ⟨Or.inl ⟨rfl, Or.inl (by decide)⟩,
   validation_failures_are_atomic idRNG c3State c6Bad (Or.inl ⟨rfl, Or.inl (by decide)⟩)⟩

/-- C7 (amended): only the `on_card_played` lifecycle hook's exceptions
are caught and treated as "no effect from this hook" (the action then
runs exactly as with a hook returning nothing); a raising plugin custom
effect handler aborts the whole action with an "Effect handler error"
failure after the card was already spent, and a raising plugin custom
action handler propagates uncaught out of `apply_action`. -/
theorem plugin_fault_isolation_scoped :
    (∀ (rng : RNG) (msg : String) (s : GameState) (a : Action),
       applyAction rng (some (hookRaisingPlugin msg)) s a =
         applyAction rng (some quietPlugin) s a) ∧
    (outRes (applyAction idRNG (some boomEffectPlugin) c7State c7Play) =
       some { success := false, errorMsg := "Effect handler error: plugin effect crashed",
              triggered := [] } ∧
     countCardInZones (outState (applyAction idRNG (some boomEffectPlugin) c7State c7Play)
       c7State) "x1" = 1 ∧
     countCardInHands (outState (applyAction idRNG (some boomEffectPlugin) c7State c7Play)
       c7State) "x1" = 0) ∧
    raised (applyAction idRNG (some boomActionPlugin) c7State c7Play) = true := by
  refine ⟨fun rng msg s a => applyAction_hook_raise_caught rng msg s a, by decide, by decide⟩

/-- C7 (counterexample): a plugin custom action handler's exception is
not caught at the engine boundary (it propagates out of `apply_action`),
and a plugin custom effect handler's exception fails the whole action
instead of letting the rest of it complete. -/
theorem plugin_action_exception_escapes :
    raised (applyAction idRNG (some boomActionPlugin) c7State c7Play) = true ∧
    (outRes (applyAction idRNG (some boomEffectPlugin) c7State c7Play)).map
      (fun r => r.success) = some false := by decide

/-- Witness for C8 on a one-card draw pile and a three-card discard pile. -/
theorem deck_recycling_moves_all_but_top_witness :
    ∃ top rest,
      (mkDiscardZone [mkCardSimple "t1" "number", mkCardSimple "t2" "number",
        mkCardSimple "t3" "number"]).cards = top :: rest ∧
      discardPileCards (ensureDrawCards idRNG c8State 5) = [top] ∧
      List.Perm (drawPileCards (ensureDrawCards idRNG c8State 5))
        ((mkDrawZone [mkCardSimple "d1" "number"]).cards ++ rest) :=
  deck_recycling_moves_all_but_top idRNG c8State 5 (fun l => List.Perm.refl l)
    (mkDrawZone [mkCardSimple "d1" "number"])
    (mkDiscardZone [mkCardSimple "t1" "number", mkCardSimple "t2" "number",
      mkCardSimple "t3" "number"])
    rfl rfl (by decide) (by decide)

/-- Witness for C10 on a configuration with no matching rules. -/
theorem no_match_rules_all_cards_playable_witness :
    canPlayCard (mkCardSimple "w1" "number") c3State = true :=
  no_match_rules_all_cards_playable (mkCardSimple "w1" "number") c3State rfl rfl rfl rfl

/-- C9: when a player who still owes attack draws explodes, the EK plugin
decrements the attack stack and returns without advancing, leaving the
room in phase `playing` with the eliminated player still flagged as the
current player - no active player holds the current-turn flag, breaking
the single-current-player invariant (the code comment even says
"Advance turn (skip eliminated player)"). -/
theorem ek_explosion_under_attack_leaves_stale_turn :
    c9State.phase = "playing" ∧ attacksPendingOf c9State = 2 ∧
    (outRes (applyAction idRNG (some ekPlugin) c9State c9Draw)).map (fun r => r.success)
      = some true ∧
    (outState (applyAction idRNG (some ekPlugin) c9State c9Draw) c9State).phase
      = "playing" ∧
    (getPlayer (outState (applyAction idRNG (some ekPlugin) c9State c9Draw) c9State)
      "p2").map (fun p => (p.status, p.isCurrentTurn)) = some ("eliminated", true) ∧
    (outState (applyAction idRNG (some ekPlugin) c9State c9Draw) c9State).currentTurnPlayerId
      = "p2" ∧
    flaggedActivePlayers (outState (applyAction idRNG (some ekPlugin) c9State c9Draw)
      c9State) = [] := by decide

end Boardify
